import Mathlib

/-!
# nfcsigner: APDU builders, response assembler and card-session handlers

A shallow embedding of `src/linux/nfcsigner_plugin.cc`.

* A byte (`uint8_t`) and a C++ `char` are natural numbers (the byte value); a
  `std::vector<uint8_t>` and a `std::string` are `List Nat`.  Casts to
  `uint8_t` are written `% 256`.
* `LONG` return codes and `int` arguments are `Int`.
* The PC/SC library is a parameter: a card is a state machine that answers
  each transmitted command with a return code and the bytes written to the
  response buffer.
* Everything the program does to the outside (commands transmitted, handles
  released, the result reported to the caller) is appended to a trace.
* C++ exceptions, undefined behaviour (an index outside a vector) and an
  exhausted loop budget are explicit results.
-/

namespace nfcsigner

/-! ## Results of a computation -/

/-- The C++ exceptions the program can raise, by dynamic type. -/
inductive Exn where
  /-- Models `std::runtime_error(what)`. -/
  | runtime_error (what : String)
  /-- Models `std::out_of_range`, thrown by `EncodableMap::at` on a missing key. -/
  | out_of_range
  /-- Models `std::bad_variant_access`, thrown by `std::get<T>` on another alternative. -/
  | bad_variant_access
  /-- Models `std::length_error`, thrown by `resize` beyond `max_size()`. -/
  | length_error
  deriving DecidableEq, Repr

/-- Result of running a piece of the program. -/
inductive Res (α : Type) where
  /-- Normal return. -/
  | ok (v : α)
  /-- An exception propagates. -/
  | raise (e : Exn)
  /-- Undefined behaviour: a vector is read outside its bounds, or a null pointer is used. -/
  | undefined
  /-- The loop budget of the model is used up (the C++ loop has no bound). -/
  | noFuel
  deriving DecidableEq, Repr

/-! ## The card transport and the trace -/

/-- Models `SCARD_S_SUCCESS`. -/
def SCARD_S_SUCCESS : Int := 0

/-- What one `SCardTransmit` call delivers: the return code and the bytes
written to the response buffer (`response_len` is `data.length`).  The
program offers a buffer of 260 bytes, so PC/SC delivers at most 260 bytes
with a success code; no theorem below depends on that bound. -/
structure Reply where
  rc : Int
  data : List Nat
  deriving DecidableEq, Repr

/-- The card behind `SCardTransmit`: from its state and a command, a reply
and the next state. -/
abbrev Transport (σ : Type) := σ → List Nat → Reply × σ

/-- Observable actions, in the order the program performs them. -/
inductive Event where
  | establishContext (rc : Int) (hContext : Nat)
  | listReaders (rc : Int)
  | connect (rc : Int) (hCard : Nat)
  | transmit (command : List Nat) (reply : Reply)
  | disconnect (hCard : Nat)
  | releaseContext (hContext : Nat)
  | success (payload : List Nat)
  | error (code : String) (message : String)
  deriving DecidableEq, Repr

/-- The state threaded through the program: the card and the trace so far. -/
structure World (σ : Type) where
  card : σ
  trace : List Event

/-- The commands transmitted in a trace, oldest first. -/
def sentCommands : List Event → List (List Nat)
  | [] => []
  | Event.transmit c _ :: es => c :: sentCommands es
  | _ :: es => sentCommands es

/-- The replies received in a trace, oldest first. -/
def receivedReplies : List Event → List Reply
  | [] => []
  | Event.transmit _ r :: es => r :: receivedReplies es
  | _ :: es => receivedReplies es

/-- One `SCardTransmit(hCard, ..., command, ..., response_buffer, &response_len)`. -/
def SCardTransmit {σ : Type} (T : Transport σ) (w : World σ) (command : List Nat) :
    Reply × World σ :=
  let r := T w.card command
  (r.1, { card := r.2, trace := w.trace ++ [Event.transmit command r.1] })

/-- The replies a card gives when fed the commands in order. -/
def feed {σ : Type} (T : Transport σ) : σ → List (List Nat) → List Reply
  | _, [] => []
  | s, c :: cs => (T s c).1 :: feed T (T s c).2 cs

/-- A scripted card: it ignores the command and plays the next reply of the
script; once the script is used up every transmission fails with code `-1`. -/
def scripted : Transport (List Reply)
  | [], _ => (⟨-1, []⟩, [])
  | r :: rs, _ => (r, rs)

/-! ## Strings and the C library -/

/-- The characters of an ASCII literal, as a `std::string`. -/
def ascii (s : String) : List Nat := s.data.map Char.toNat

/-- Models `s.c_str()` seen as a C string: the characters before the first NUL. -/
def c_str (s : List Nat) : List Nat := s.takeWhile (fun c => c != 0)

/-- Models `isspace` in the C locale: space, `\t`, `\n`, `\v`, `\f`, `\r`. -/
def isspace (c : Nat) : Bool := c == 32 || (9 ≤ c && c ≤ 13)

/-- The value of a hexadecimal digit character (`0-9`, `a-f`, `A-F`). -/
def hexDigit (c : Nat) : Option Nat :=
  if 48 ≤ c ∧ c ≤ 57 then some (c - 48)
  else if 97 ≤ c ∧ c ≤ 102 then some (c - 87)
  else if 65 ≤ c ∧ c ≤ 70 then some (c - 55)
  else none

/-- The longest run of hexadecimal digits at the front of a C string: the
digit values, and what follows them. -/
def spanHex : List Nat → List Nat × List Nat
  | [] => ([], [])
  | c :: cs =>
    match hexDigit c with
    | some v => (v :: (spanHex cs).1, (spanHex cs).2)
    | none => ([], c :: cs)

/-- Models `LONG_MAX` and `LONG_MIN` clamp of `strtol` (64-bit `long`). -/
def clampLong (v : Int) : Int :=
  if v > 9223372036854775807 then 9223372036854775807
  else if v < -9223372036854775808 then -9223372036854775808
  else v

/-- Models `strtol(nptr, &end, 16)` of the C library on a C string: leading white
space is skipped, then an optional sign, then an optional `0x`/`0X` that is
followed by a hexadecimal digit, then the longest run of hexadecimal
digits.  The result is the value and the string `end` points to; with no
digit at all the value is 0 and `end` is `nptr`. -/
def strtol16 (nptr : List Nat) : Int × List Nat :=
  let s1 := nptr.dropWhile isspace
  let signed : Bool × List Nat :=
    match s1 with
    | 45 :: t => (true, t)
    | 43 :: t => (false, t)
    | _ => (false, s1)
  let s2 := signed.2
  let s3 :=
    match s2 with
    | 48 :: x :: h :: t => if (x = 120 ∨ x = 88) ∧ (hexDigit h).isSome then h :: t else s2
    | _ => s2
  let ds := spanHex s3
  if ds.1 = [] then (0, nptr)
  else
    let v : Int := ((ds.1.foldl (fun a d => a * 16 + d) 0 : Nat) : Int)
    (clampLong (if signed.1 then -v else v), ds.2)

/-- The character `*end`: the first character of the rest, or NUL at the end
of the C string. -/
def deref (rest : List Nat) : Nat := rest.headD 0

/-- Sequencing of results: the first failure is the result. -/
def Res.bind {α β : Type} (r : Res α) (f : α → Res β) : Res β :=
  match r with
  | Res.ok v => f v
  | Res.raise e => Res.raise e
  | Res.undefined => Res.undefined
  | Res.noFuel => Res.noFuel

/-! ## APDU command builders -/

/-- The `for` loop of `HexToBytes`, from position `i` on: `hex` is what is
left of the string from `i`, `bytes` the bytes pushed so far. -/
def HexToBytes.loop : List Nat → List Nat → Res (List Nat)
  | [], bytes => Res.ok bytes
  | [a], bytes =>
    let r := strtol16 (c_str [a])
    if deref r.2 ≠ 0 then Res.raise (Exn.runtime_error "Invalid hex character")
    else Res.ok (bytes ++ [(r.1 % 256).toNat])
  | a :: b :: rest, bytes =>
    let r := strtol16 (c_str [a, b])
    if deref r.2 ≠ 0 then Res.raise (Exn.runtime_error "Invalid hex character")
    else HexToBytes.loop rest (bytes ++ [(r.1 % 256).toNat])

/-- Models `HexToBytes(hex)`. -/
def HexToBytes (hex : List Nat) : Res (List Nat) :=
  if hex.length % 2 ≠ 0 then Res.raise (Exn.runtime_error "Hex string must have even length")
  else HexToBytes.loop hex []

/-- Models `CreateSelectAppletCommand(appletID)`. -/
def CreateSelectAppletCommand (appletID : List Nat) : Res (List Nat) :=
  (HexToBytes appletID).bind fun appletID_bytes =>
    Res.ok ([0x00, 0xA4, 0x04, 0x00, appletID_bytes.length % 256] ++ appletID_bytes ++ [0x00])

/-- Models `CreateVerifyPinCommand(pin)`. -/
def CreateVerifyPinCommand (pin : List Nat) : List Nat :=
  [0x00, 0x20, 0x00, 0x81, pin.length % 256] ++ pin

/-- Models `CreateComputeSignatureCommand(data, keyIndex)`. -/
def CreateComputeSignatureCommand (data : List Nat) (keyIndex : Int) : List Nat :=
  let p1 := 0x9E
  let p2 := if keyIndex = 1 then 0x9B else if keyIndex = 2 then 0x9C else 0x9A
  [0x00, 0x2A, p1, p2, data.length % 256] ++ data ++ [0x00]

/-- Models `CreateSelectCertificateCommand()`. -/
def CreateSelectCertificateCommand : List Nat :=
  let data := [0x60, 0x04, 0x5C, 0x02, 0x7F, 0x21]
  [0x00, 0xA5, 0x02, 0x04, data.length % 256] ++ data ++ [0x00]

/-- Models `CreateGetRsaPublicKeyCommand(keyRole)`. -/
def CreateGetRsaPublicKeyCommand (keyRole : List Nat) : Res (List Nat) :=
  let data : Res (List Nat) :=
    if keyRole = ascii "sig" then Res.ok [0xB6, 0x00]
    else if keyRole = ascii "dec" then Res.ok [0xB8, 0x00]
    else if keyRole = ascii "aut" then Res.ok [0xA4, 0x00]
    else if keyRole = ascii "sm" then Res.ok [0xA6, 0x00]
    else Res.raise (Exn.runtime_error "Invalid key role.")
  data.bind fun data => Res.ok ([0x00, 0x47, 0x81, 0x00, data.length % 256] ++ data ++ [0x00])

/-- Models `CreateGetCertificateCommand()`. -/
def CreateGetCertificateCommand : List Nat := [0x00, 0xCA, 0x7F, 0x21, 0x00]

/-! ## The hexadecimal decoding the specification describes -/

/-- A hexadecimal digit character. -/
def isHexDigit (c : Nat) : Prop := (48 ≤ c ∧ c ≤ 57) ∨ (97 ≤ c ∧ c ≤ 102) ∨ (65 ≤ c ∧ c ≤ 70)

instance (c : Nat) : Decidable (isHexDigit c) := by
  unfold isHexDigit; infer_instance

/-- The value of a hexadecimal digit character, 0 for any other character. -/
def hexValue (c : Nat) : Nat := (hexDigit c).getD 0

/-- Pairwise big-endian decoding of a string of hexadecimal digits: each
pair `hi lo` is the byte `16 * hi + lo`. -/
def decodeHexPairs : List Nat → List Nat
  | a :: b :: rest => (16 * hexValue a + hexValue b) :: decodeHexPairs rest
  | _ => []

/-! ## TransmitAndGetResponse -/

/-- The command `{ 0x00, 0xC0, 0x00, 0x00, le }`. -/
def get_response_cmd (le : Nat) : List Nat := [0x00, 0xC0, 0x00, 0x00, le]

/-- Models `std::to_string(lReturn)`. -/
def to_string (n : Int) : String := toString n

/-- The `while (response_buffer[response_len - 2] == 0x61)` loop.  `buf` is
`response_buffer` (already resized to `response_len`), `full` is
`full_response_data`; the result is the pair of both at loop exit. -/
def chainLoop {σ : Type} (T : Transport σ) :
    Nat → World σ → List Nat → List Nat → Res (List Nat × List Nat) × World σ
  | fuel, w, buf, full =>
    if buf.length < 2 then (Res.undefined, w)
    else if buf.getD (buf.length - 2) 0 = 0x61 then
      match fuel with
      | 0 => (Res.noFuel, w)
      | n + 1 =>
        let le := buf.getD (buf.length - 1) 0
        let r := SCardTransmit T w (get_response_cmd le)
        if r.1.rc ≠ SCARD_S_SUCCESS then
          (Res.raise (Exn.runtime_error ("GET RESPONSE transmit error: " ++ to_string r.1.rc)), r.2)
        else
          let buf1 := r.1.data
          let full1 := if buf1.length > 2 then full ++ buf1.take (buf1.length - 2) else full
          chainLoop T n r.2 buf1 full1
    else (Res.ok (buf, full), w)

/-- Models `NfcsignerPlugin::TransmitAndGetResponse(hCard, command)`. -/
def TransmitAndGetResponse {σ : Type} (T : Transport σ) (fuel : Nat) (w : World σ)
    (command : List Nat) : Res (List Nat) × World σ :=
  let r := SCardTransmit T w command
  if r.1.rc ≠ SCARD_S_SUCCESS then
    (Res.raise (Exn.runtime_error ("SCardTransmit error: " ++ to_string r.1.rc)), r.2)
  else
    let response_buffer := r.1.data
    let response_len := response_buffer.length
    if response_len ≥ 2 ∧ response_buffer.getD (response_len - 2) 0 = 0x61 then
      let full_response_data :=
        if response_len > 2 then response_buffer.take (response_len - 2) else []
      match chainLoop T fuel r.2 response_buffer full_response_data with
      | (Res.ok (buf, full), w1) =>
        (Res.ok (full ++ [buf.getD (buf.length - 2) 0, buf.getD (buf.length - 1) 0]), w1)
      | (Res.raise e, w1) => (Res.raise e, w1)
      | (Res.undefined, w1) => (Res.undefined, w1)
      | (Res.noFuel, w1) => (Res.noFuel, w1)
    else (Res.ok response_buffer, r.2)


/-! ## Method-call arguments -/

/-- The alternatives of `flutter::EncodableValue` the handlers read; `other`
stands for every remaining alternative (double, list, map, ...). -/
inductive EncodableValue where
  | null
  | bool (b : Bool)
  | int32 (i : Int)
  | int64 (i : Int)
  | string (s : List Nat)
  | uint8list (v : List Nat)
  | other
  deriving DecidableEq, Repr

/-- A `flutter::EncodableMap` with string keys. -/
abbrev EncodableMap := List (String × EncodableValue)

/-- Models `args->at(flutter::EncodableValue(key))`: a null `args` is dereferenced
(undefined behaviour), a missing key throws `std::out_of_range`. -/
def argAt (args : Option EncodableMap) (key : String) : Res EncodableValue :=
  match args with
  | none => Res.undefined
  | some m =>
    match m.lookup key with
    | some v => Res.ok v
    | none => Res.raise Exn.out_of_range

/-- Models `std::get<std::string>(v)`. -/
def getString : EncodableValue → Res (List Nat)
  | EncodableValue.string s => Res.ok s
  | _ => Res.raise Exn.bad_variant_access

/-- Models `std::get<std::vector<uint8_t>>(v)`. -/
def getBytes : EncodableValue → Res (List Nat)
  | EncodableValue.uint8list v => Res.ok v
  | _ => Res.raise Exn.bad_variant_access

/-- Models `std::get<int>(v)`. -/
def getInt : EncodableValue → Res Int
  | EncodableValue.int32 i => Res.ok i
  | _ => Res.raise Exn.bad_variant_access

/-! ## Programs over the world -/

/-- A piece of the program: from a world, a result and the world after. -/
abbrev Prog (σ : Type) (α : Type) := World σ → Res α × World σ

/-- Sequencing: the rest runs only after a normal return. -/
def Prog.bind {σ α β : Type} (m : Prog σ α) (f : α → Prog σ β) : Prog σ β := fun w =>
  match m w with
  | (Res.ok v, w1) => f v w1
  | (Res.raise e, w1) => (Res.raise e, w1)
  | (Res.undefined, w1) => (Res.undefined, w1)
  | (Res.noFuel, w1) => (Res.noFuel, w1)

/-- A computation that does not touch the world. -/
def Prog.lift {σ α : Type} (r : Res α) : Prog σ α := fun w => (r, w)

/-- Append an event to the trace. -/
def emit {σ : Type} (e : Event) : Prog σ Unit := fun w =>
  (Res.ok (), { card := w.card, trace := w.trace ++ [e] })

/-- A `throw std::runtime_error(what)` statement. -/
def throwRuntime {σ α : Type} (what : String) : Prog σ α :=
  Prog.lift (Res.raise (Exn.runtime_error what))

/-! ## Status-word checks of the handlers -/

/-- The condition `resp.back() != 0x00 || resp[resp.size() - 2] != 0x90` of
HandleSign and HandleGetCertificate.  `back()` of an empty vector and the
index `size() - 2` of a one-byte vector are undefined behaviour; the second
operand is evaluated only when the first is false. -/
def statusNot9000 (resp : List Nat) : Res Bool :=
  if resp.length = 0 then Res.undefined
  else if resp.getD (resp.length - 1) 0 ≠ 0x00 then Res.ok true
  else if resp.length < 2 then Res.undefined
  else Res.ok (decide (resp.getD (resp.length - 2) 0 ≠ 0x90))

/-- The condition `resp.size() < 2 || resp[resp.size() - 2] != 0x90` of
HandleGetPublicKey and HandleSignPdf. -/
def sw1Not90 (resp : List Nat) : Bool :=
  decide (resp.length < 2) || decide (resp.getD (resp.length - 2) 0 ≠ 0x90)

/-- The vector built from `resp.begin()` to `resp.end() - 2`. -/
def withoutStatus (resp : List Nat) : List Nat := resp.take (resp.length - 2)

/-! ## CardOperation -/

/-- What the PC/SC calls that open a session return. -/
structure Pcsc where
  /-- Return code of `SCardEstablishContext` and the value left in `hContext`. -/
  establishContext : Int × Nat
  /-- Return code of the sizing `SCardListReaders` call and `dwReaders`. -/
  listReadersSize : Int × Nat
  /-- Return code of the second `SCardListReaders` call and the contents of `readersBuffer`. -/
  listReaders : Int × List Nat
  /-- Return code of `SCardConnect` and the value left in `hCard`. -/
  connect : Int × Nat

/-- The handles `hContext` and `hCard` as the `try` block leaves them. -/
structure Handles where
  hContext : Nat
  hCard : Nat
  deriving DecidableEq, Repr

/-- The `try` block of `CardOperation`: the result of the block and the
handles at the point it is left. -/
def CardOperation.tryBlock {σ : Type} (P : Pcsc) (operation : Nat → Prog σ Unit)
    (w : World σ) : (Res Unit × Handles) × World σ :=
  let hContext := P.establishContext.2
  let w1 : World σ :=
    { card := w.card,
      trace := w.trace ++ [Event.establishContext P.establishContext.1 hContext] }
  if P.establishContext.1 ≠ SCARD_S_SUCCESS then
    ((Res.raise (Exn.runtime_error
      ("SCardEstablishContext failed: " ++ to_string P.establishContext.1)), ⟨hContext, 0⟩), w1)
  else
    let w2 : World σ :=
      { card := w1.card, trace := w1.trace ++ [Event.listReaders P.listReadersSize.1] }
    if P.listReadersSize.1 ≠ SCARD_S_SUCCESS ∨ P.listReadersSize.2 = 0 then
      ((Res.raise (Exn.runtime_error "No card readers found or SCardListReaders failed"),
        ⟨hContext, 0⟩),
       { card := w2.card, trace := w2.trace ++ [Event.releaseContext hContext] })
    else
      let w3 : World σ :=
        { card := w2.card, trace := w2.trace ++ [Event.listReaders P.listReaders.1] }
      if P.listReaders.1 ≠ SCARD_S_SUCCESS then
        ((Res.raise (Exn.runtime_error "SCardListReaders failed to get reader names"),
          ⟨hContext, 0⟩),
         { card := w3.card, trace := w3.trace ++ [Event.releaseContext hContext] })
      else
        let readerName := c_str P.listReaders.2
        if readerName = [] then
          ((Res.raise (Exn.runtime_error "No valid reader found"), ⟨hContext, 0⟩),
           { card := w3.card, trace := w3.trace ++ [Event.releaseContext hContext] })
        else
          let hCard := P.connect.2
          let w4 : World σ :=
            { card := w3.card, trace := w3.trace ++ [Event.connect P.connect.1 hCard] }
          if P.connect.1 ≠ SCARD_S_SUCCESS then
            ((Res.raise (Exn.runtime_error
              ("SCardConnect failed. Is a card inserted? Error: " ++ to_string P.connect.1)),
              ⟨hContext, hCard⟩),
             { card := w4.card, trace := w4.trace ++ [Event.releaseContext hContext] })
          else
            let r := operation hCard w4
            ((r.1, ⟨hContext, hCard⟩), r.2)

/-- The two statements after the `try`/`catch`:
`if (hCard) SCardDisconnect(...)` and `if (hContext) SCardReleaseContext(...)`. -/
def CardOperation.cleanup {σ : Type} (h : Handles) (w : World σ) : World σ :=
  let w1 : World σ :=
    if h.hCard ≠ 0 then { card := w.card, trace := w.trace ++ [Event.disconnect h.hCard] }
    else w
  if h.hContext ≠ 0 then
    { card := w1.card, trace := w1.trace ++ [Event.releaseContext h.hContext] }
  else w1

/-- Models `CardOperation(operation, result)`.  Only `std::runtime_error` is caught;
any other exception leaves the function at once, past the clean-up. -/
def CardOperation {σ : Type} (P : Pcsc) (operation : Nat → Prog σ Unit) : Prog σ Unit :=
  fun w =>
    let t := CardOperation.tryBlock P operation w
    match t.1.1 with
    | Res.ok () => (Res.ok (), CardOperation.cleanup t.1.2 t.2)
    | Res.raise (Exn.runtime_error what) =>
      (Res.ok (), CardOperation.cleanup t.1.2
        { card := t.2.card, trace := t.2.trace ++ [Event.error "PC/SC_ERROR" what] })
    | Res.raise e => (Res.raise e, t.2)
    | Res.undefined => (Res.undefined, t.2)
    | Res.noFuel => (Res.noFuel, t.2)

/-! ## Handlers -/

/-- The lambda `HandleSign` passes to `CardOperation`. -/
def HandleSign.operation {σ : Type} (T : Transport σ) (fuel : Nat)
    (args : Option EncodableMap) (_hCard : Nat) : Prog σ Unit :=
  Prog.bind (Prog.lift ((argAt args "appletID").bind getString)) fun appletID =>
  Prog.bind (Prog.lift ((argAt args "pin").bind getString)) fun pin =>
  Prog.bind (Prog.lift ((argAt args "dataToSign").bind getBytes)) fun dataToSign =>
  Prog.bind (Prog.lift ((argAt args "keyIndex").bind getInt)) fun keyIndex =>
  Prog.bind (Prog.lift (CreateSelectAppletCommand appletID)) fun select_cmd =>
  Prog.bind (fun w => TransmitAndGetResponse T fuel w select_cmd) fun select_resp =>
  Prog.bind (Prog.lift (statusNot9000 select_resp)) fun bad =>
  if bad then throwRuntime "Chọn Applet thất bại."
  else
  Prog.bind (fun w => TransmitAndGetResponse T fuel w (CreateVerifyPinCommand pin))
    fun verify_resp =>
  Prog.bind (Prog.lift (statusNot9000 verify_resp)) fun bad =>
  if bad then throwRuntime "Xác thực PIN thất bại."
  else
  Prog.bind (fun w => TransmitAndGetResponse T fuel w
    (CreateComputeSignatureCommand dataToSign keyIndex)) fun sign_resp =>
  Prog.bind (Prog.lift (statusNot9000 sign_resp)) fun bad =>
  if bad then throwRuntime "Ký số thất bại."
  else emit (Event.success (withoutStatus sign_resp))

/-- Models `NfcsignerPlugin::HandleSign(args, result)`. -/
def HandleSign {σ : Type} (P : Pcsc) (T : Transport σ) (fuel : Nat)
    (args : Option EncodableMap) : Prog σ Unit :=
  CardOperation P (HandleSign.operation T fuel args)

/-- The lambda `HandleGetPublicKey` passes to `CardOperation`. -/
def HandleGetPublicKey.operation {σ : Type} (T : Transport σ) (fuel : Nat)
    (args : Option EncodableMap) (_hCard : Nat) : Prog σ Unit :=
  Prog.bind (Prog.lift ((argAt args "appletID").bind getString)) fun appletID =>
  Prog.bind (Prog.lift ((argAt args "keyRole").bind getString)) fun keyRole =>
  Prog.bind (Prog.lift (CreateSelectAppletCommand appletID)) fun select_cmd =>
  Prog.bind (Prog.lift (CreateGetRsaPublicKeyCommand keyRole)) fun get_key_cmd =>
  Prog.bind (fun w => TransmitAndGetResponse T fuel w select_cmd) fun select_resp =>
  if sw1Not90 select_resp then throwRuntime "Select Applet failed."
  else
  Prog.bind (fun w => TransmitAndGetResponse T fuel w get_key_cmd) fun key_resp =>
  if sw1Not90 key_resp then throwRuntime "Get Public Key failed."
  else emit (Event.success (withoutStatus key_resp))

/-- Models `NfcsignerPlugin::HandleGetPublicKey(args, result)`. -/
def HandleGetPublicKey {σ : Type} (P : Pcsc) (T : Transport σ) (fuel : Nat)
    (args : Option EncodableMap) : Prog σ Unit :=
  CardOperation P (HandleGetPublicKey.operation T fuel args)

/-- The lambda `HandleGetCertificate` passes to `CardOperation`. -/
def HandleGetCertificate.operation {σ : Type} (T : Transport σ) (fuel : Nat)
    (args : Option EncodableMap) (_hCard : Nat) : Prog σ Unit :=
  Prog.bind (Prog.lift ((argAt args "appletID").bind getString)) fun appletID =>
  Prog.bind (Prog.lift (CreateSelectAppletCommand appletID)) fun select_cmd =>
  Prog.bind (fun w => TransmitAndGetResponse T fuel w select_cmd) fun select_resp =>
  Prog.bind (Prog.lift (statusNot9000 select_resp)) fun bad =>
  if bad then throwRuntime "Chọn Applet thất bại."
  else
  Prog.bind (fun w => TransmitAndGetResponse T fuel w CreateSelectCertificateCommand)
    fun select_cert_resp =>
  Prog.bind (Prog.lift (statusNot9000 select_cert_resp)) fun bad =>
  if bad then throwRuntime "Chọn dữ liệu Certificate thất bại."
  else
  Prog.bind (fun w => TransmitAndGetResponse T fuel w CreateGetCertificateCommand)
    fun cert_resp =>
  Prog.bind (Prog.lift (statusNot9000 cert_resp)) fun bad =>
  if bad then throwRuntime "Lấy Certificate thất bại."
  else emit (Event.success (withoutStatus cert_resp))

/-- Models `NfcsignerPlugin::HandleGetCertificate(args, result)`. -/
def HandleGetCertificate {σ : Type} (P : Pcsc) (T : Transport σ) (fuel : Nat)
    (args : Option EncodableMap) : Prog σ Unit :=
  CardOperation P (HandleGetCertificate.operation T fuel args)

/-- The results reported to the caller in a trace (`Success` and `Error` calls). -/
def reported : List Event → List Event
  | [] => []
  | Event.success p :: es => Event.success p :: reported es
  | Event.error c m :: es => Event.error c m :: reported es
  | _ :: es => reported es

/-- A reader and a card are present: every call that opens the session succeeds. -/
def sessionOpens (P : Pcsc) : Prop :=
  P.establishContext.1 = SCARD_S_SUCCESS ∧
  P.listReadersSize.1 = SCARD_S_SUCCESS ∧ P.listReadersSize.2 ≠ 0 ∧
  P.listReaders.1 = SCARD_S_SUCCESS ∧ c_str P.listReaders.2 ≠ [] ∧
  P.connect.1 = SCARD_S_SUCCESS

instance (P : Pcsc) : Decidable (sessionOpens P) := by
  unfold sessionOpens; infer_instance

/-- A PC/SC environment with one reader named `R` and a card in it; the
context handle is 7 and the card handle is 9. -/
def pcscReady : Pcsc :=
  { establishContext := (0, 7),
    listReadersSize := (0, 3),
    listReaders := (0, [82, 0, 0]),
    connect := (0, 9) }

/-- The world once the session is open: the four calls that open it are in the trace. -/
def openedWorld {σ : Type} (P : Pcsc) (w : World σ) : World σ :=
  { card := w.card,
    trace := w.trace ++ [Event.establishContext P.establishContext.1 P.establishContext.2,
      Event.listReaders P.listReadersSize.1, Event.listReaders P.listReaders.1,
      Event.connect P.connect.1 P.connect.2] }

/-- The arguments of the end-to-end scenario: applet
`A000000063504B43532D3135`, PIN `123456`, data `01 02 03`, keyIndex 1. -/
def scenarioSignArgs : EncodableMap :=
  [("appletID", EncodableValue.string (ascii "A000000063504B43532D3135")),
   ("pin", EncodableValue.string (ascii "123456")),
   ("dataToSign", EncodableValue.uint8list [0x01, 0x02, 0x03]),
   ("keyIndex", EncodableValue.int32 1)]

/-- Arguments of a getRsaPublicKey call: applet `A000000063504B43532D3135`, role `sig`. -/
def scenarioKeyArgs : EncodableMap :=
  [("appletID", EncodableValue.string (ascii "A000000063504B43532D3135")),
   ("keyRole", EncodableValue.string (ascii "sig"))]

/-! ## The signing callback of HandleSignPdf -/

/-- Models `signedHash.resize(n)` on a `PoDoFo::charbuff` (a `std::string`): the first
`n` characters are kept and NUL characters are appended up to size `n`; a size
beyond `max_size()` (at most `PTRDIFF_MAX`) throws `std::length_error`.
Running out of memory is not modelled. -/
def resize (signedHash : List Nat) (n : Nat) : Res (List Nat) :=
  if n > 9223372036854775807 then Res.raise Exn.length_error
  else Res.ok (signedHash.take n ++ List.replicate (n - signedHash.length) 0)

/-- The lambda `params.SigningService` of `HandleSignPdf`
(`[&](bufferview hashToSign, bool dryrun, charbuff& signedHash)`).  The
variables it captures by reference are parameters: the card handle (the
transport and the world), `data_to_send_to_card` (the argument
`pdfHashBytes`), `keyIndex` and `signatureLength`.  The result is the
content of `signedHash` when the lambda returns; when it throws,
`signedHash` has not been written. -/
def SigningService {σ : Type} (T : Transport σ) (fuel : Nat)
    (data_to_send_to_card : List Nat) (keyIndex : Int) (signatureLength : Int)
    (_hashToSign : List Nat) (dryrun : Bool) (signedHash : List Nat) : Prog σ (List Nat) :=
  let signatureSize : Nat := (signatureLength % 18446744073709551616).toNat
  if dryrun then Prog.lift (resize signedHash signatureSize)
  else
  Prog.bind (fun w => TransmitAndGetResponse T fuel w
    (CreateComputeSignatureCommand data_to_send_to_card keyIndex)) fun sign_resp =>
  if sw1Not90 sign_resp then
    throwRuntime "Compute signature failed on card inside callback."
  else
    let signature_raw := withoutStatus sign_resp
    if signedHash.length < signature_raw.length then
      throwRuntime "PoDoFo allocated a buffer that is too small for the actual signature."
    else if signature_raw ≠ [] then Prog.lift (Res.ok signature_raw)
    else Prog.lift (Res.ok signedHash)

/-! ## The replies of a run -/

/-- The reply number `n` (from 0) of the run that starts by sending `command`
in card state `s` and answers every reply with GET RESPONSE for its last byte. -/
def replyAt {σ : Type} (T : Transport σ) : Nat → σ → List Nat → Reply
  | 0, s, command => (T s command).1
  | n + 1, s, command =>
    replyAt T n (T s command).2
      (get_response_cmd ((T s command).1.data.getD ((T s command).1.data.length - 1) 0))

/-- The commands number 0 to `k` of the run that starts by sending `command`
in card state `s`: the first is `command`, each later one is the GET RESPONSE
command for the last byte of the reply before it. -/
def runCommands {σ : Type} (T : Transport σ) : Nat → σ → List Nat → List (List Nat)
  | 0, _, command => [command]
  | k + 1, s, command =>
    command :: runCommands T k (T s command).2
      (get_response_cmd ((T s command).1.data.getD ((T s command).1.data.length - 1) 0))

/-- The replies number 0 to `k` of the same run. -/
def runReplies {σ : Type} (T : Transport σ) : Nat → σ → List Nat → List Reply
  | 0, s, command => [(T s command).1]
  | k + 1, s, command =>
    (T s command).1 :: runReplies T k (T s command).2
      (get_response_cmd ((T s command).1.data.getD ((T s command).1.data.length - 1) 0))

/-- Number of `releaseContext` events in a trace. -/
def releaseCount : List Event → Nat
  | [] => 0
  | Event.releaseContext _ :: es => releaseCount es + 1
  | _ :: es => releaseCount es

/-- Number of `disconnect` events in a trace. -/
def disconnectCount : List Event → Nat
  | [] => 0
  | Event.disconnect _ :: es => disconnectCount es + 1
  | _ :: es => disconnectCount es

/-- A PC/SC environment in which the context is established (handle 7) and
the sizing `SCardListReaders` call succeeds with `dwReaders = 0`: no reader. -/
def pcscNoReader : Pcsc :=
  { establishContext := (0, 7),
    listReadersSize := (0, 0),
    listReaders := (0, []),
    connect := (0, 0) }

/-- Arguments of a generateSignature call with the required parameter `pin` missing. -/
def signArgsWithoutPin : EncodableMap :=
  [("appletID", EncodableValue.string (ascii "A000000063504B43532D3135")),
   ("dataToSign", EncodableValue.uint8list [0x01, 0x02, 0x03]),
   ("keyIndex", EncodableValue.int32 1)]

/-- Arguments of a generateSignature call whose `keyIndex` is a 64-bit integer
value, not the `int` alternative `std::get<int>` asks for. -/
def signArgsKeyIndex64 : EncodableMap :=
  [("appletID", EncodableValue.string (ascii "A000000063504B43532D3135")),
   ("pin", EncodableValue.string (ascii "123456")),
   ("dataToSign", EncodableValue.uint8list [0x01, 0x02, 0x03]),
   ("keyIndex", EncodableValue.int64 4294967296)]

/-! ## Describing a run of the assembler -/

/-- A successful reply of at least two bytes whose second-to-last byte is
0x61: the card has more data. -/
def moreData (r : Reply) : Prop :=
  r.rc = SCARD_S_SUCCESS ∧ 2 ≤ r.data.length ∧ r.data.getD (r.data.length - 2) 0 = 0x61

instance (r : Reply) : Decidable (moreData r) := by
  unfold moreData; infer_instance

/-- The last byte of a reply. -/
def lastByte (r : Reply) : Nat := r.data.getD (r.data.length - 1) 0

/-- The trace of a sequence of exchanges: the i-th command answered by the i-th reply. -/
def exchanges (cmds : List (List Nat)) (replies : List Reply) : List Event :=
  List.zipWith Event.transmit cmds replies

/-- A successful reply `data 61 le`. -/
def chunkReply (c : List Nat × Nat) : Reply := ⟨SCARD_S_SUCCESS, c.1 ++ [0x61, c.2]⟩

/-- The GET RESPONSE command that answers the reply `data 61 le`. -/
def chunkCmd (c : List Nat × Nat) : List Nat := get_response_cmd c.2

/-! ## Theorems -/

/-! ### Lists ending in a status word -/

theorem length_append_two (d : List Nat) (a b : Nat) :
    (d ++ [a, b]).length = d.length + 2 := by
  simp

theorem getD_append_two_fst (d : List Nat) (a b : Nat) :
    (d ++ [a, b]).getD ((d ++ [a, b]).length - 2) 0 = a := by
  have h : (d ++ [a, b]).length - 2 = d.length := by simp
  rw [h, List.getD_eq_getElem?_getD, List.getElem?_append_right (le_refl _)]
  simp

theorem getD_append_two_snd (d : List Nat) (a b : Nat) :
    (d ++ [a, b]).getD ((d ++ [a, b]).length - 1) 0 = b := by
  have h : (d ++ [a, b]).length - 1 = d.length + 1 := by simp
  rw [h, List.getD_eq_getElem?_getD, List.getElem?_append_right (Nat.le_succ _)]
  simp

theorem take_append_two (d : List Nat) (a b : Nat) :
    (d ++ [a, b]).take ((d ++ [a, b]).length - 2) = d := by
  have h : (d ++ [a, b]).length - 2 = d.length := by simp
  rw [h, List.take_left]

theorem accumulate_append_two (full d : List Nat) (a b : Nat) :
    (if (d ++ [a, b]).length > 2 then full ++ (d ++ [a, b]).take ((d ++ [a, b]).length - 2)
      else full) = full ++ d := by
  rw [take_append_two]
  split
  · rfl
  · rename_i h
    have hd : d = [] := by
      cases d with
      | nil => rfl
      | cons x xs => simp at h
    simp [hd]

/-! ### The loop on a scripted run -/

theorem chainLoop_done {σ : Type} (T : Transport σ) (fuel : Nat) (w : World σ)
    (d full : List Nat) (sw1 sw2 : Nat) (h : sw1 ≠ 0x61) :
    chainLoop T fuel w (d ++ [sw1, sw2]) full = (Res.ok (d ++ [sw1, sw2], full), w) := by
  rw [chainLoop.eq_def]
  have hl : ¬ (d ++ [sw1, sw2]).length < 2 := by simp
  simp only [hl, if_false, getD_append_two_fst, h]

theorem chainLoop_step {σ : Type} (T : Transport σ) (n : Nat) (w : World σ)
    (d full : List Nat) (le : Nat) :
    chainLoop T (n + 1) w (d ++ [0x61, le]) full =
      if (T w.card (get_response_cmd le)).1.rc ≠ SCARD_S_SUCCESS then
        (Res.raise (Exn.runtime_error ("GET RESPONSE transmit error: " ++
          to_string (T w.card (get_response_cmd le)).1.rc)),
          (SCardTransmit T w (get_response_cmd le)).2)
      else
        chainLoop T n (SCardTransmit T w (get_response_cmd le)).2
          (T w.card (get_response_cmd le)).1.data
          (if (T w.card (get_response_cmd le)).1.data.length > 2 then
            full ++ (T w.card (get_response_cmd le)).1.data.take
              ((T w.card (get_response_cmd le)).1.data.length - 2)
           else full) := by
  rw [chainLoop.eq_def]
  have hl : ¬ (d ++ [0x61, le]).length < 2 := by simp
  simp only [hl, if_false, getD_append_two_fst, getD_append_two_snd, if_true, SCardTransmit]

theorem chainLoop_stop {σ : Type} (T : Transport σ) (fuel : Nat) (w : World σ)
    (r : Reply) (full : List Nat) (hrc : r.rc = SCARD_S_SUCCESS) (h : ¬ moreData r) :
    (chainLoop T fuel w r.data full).2 = w := by
  rw [chainLoop.eq_def]
  by_cases hl : r.data.length < 2
  · simp only [hl, if_true]
  · have h61 : ¬ r.data.getD (r.data.length - 2) 0 = 0x61 := by
      intro h6
      exact h ⟨hrc, by omega, h6⟩
    simp only [hl, if_false, h61]

theorem chainLoop_script {σ : Type} (T : Transport σ) (final : Reply)
    (hfin : ¬ moreData final) :
    ∀ (cs : List (List Nat × Nat)) (w : World σ) (d : List Nat) (le : Nat)
      (full : List Nat) (fuel : Nat),
      feed T w.card (get_response_cmd le :: cs.map chunkCmd) = cs.map chunkReply ++ [final] →
      cs.length < fuel →
      (chainLoop T fuel w (d ++ [0x61, le]) full).2.trace =
          w.trace ++ exchanges (get_response_cmd le :: cs.map chunkCmd)
            (cs.map chunkReply ++ [final]) ∧
      (final.rc ≠ SCARD_S_SUCCESS →
        (chainLoop T fuel w (d ++ [0x61, le]) full).1 =
          Res.raise (Exn.runtime_error ("GET RESPONSE transmit error: " ++ to_string final.rc))) ∧
      (final.rc = SCARD_S_SUCCESS → ∀ (dF : List Nat) (sw1 sw2 : Nat),
        final.data = dF ++ [sw1, sw2] → sw1 ≠ 0x61 →
        (chainLoop T fuel w (d ++ [0x61, le]) full).1 =
          Res.ok (dF ++ [sw1, sw2], full ++ (cs.map Prod.fst).flatten ++ dF)) := by
  intro cs
  induction cs with
  | nil =>
    intro w d le full fuel hfeed hfuel
    obtain ⟨n, rfl⟩ : ∃ n, fuel = n + 1 := ⟨fuel - 1, by simp at hfuel; omega⟩
    simp only [List.map_nil, feed, List.nil_append, List.cons.injEq, and_true] at hfeed
    rw [chainLoop_step, hfeed]
    have htr : (SCardTransmit T w (get_response_cmd le)).2.trace =
        w.trace ++ exchanges [get_response_cmd le] [final] := by
      simp [SCardTransmit, exchanges, hfeed]
    by_cases hrc : final.rc = SCARD_S_SUCCESS
    · simp only [hrc, ne_eq, not_true_eq_false, if_false, false_implies, true_and,
        forall_true_left]
      refine ⟨?_, ?_⟩
      · rw [chainLoop_stop T n _ final _ hrc hfin]
        exact htr
      · intro dF sw1 sw2 hdata hsw
        rw [hdata, accumulate_append_two, chainLoop_done T n _ dF _ sw1 sw2 hsw]
        simp
    · simp only [ne_eq, hrc, not_false_eq_true, if_true, forall_true_left, false_implies,
        and_true]
      simpa using htr
  | cons c cs ih =>
    intro w d le full fuel hfeed hfuel
    obtain ⟨n, rfl⟩ : ∃ n, fuel = n + 1 := ⟨fuel - 1, by simp at hfuel; omega⟩
    simp only [List.map_cons, feed, List.cons_append, List.cons.injEq] at hfeed
    obtain ⟨h1, h2⟩ := hfeed
    have hn : cs.length < n := by simp at hfuel; omega
    rw [chainLoop_step, h1]
    have hc : (chunkReply c).rc = SCARD_S_SUCCESS := rfl
    simp only [hc, ne_eq, not_true_eq_false, if_false]
    have hd : (chunkReply c).data = c.1 ++ [0x61, c.2] := rfl
    rw [hd, accumulate_append_two]
    have hcard : (SCardTransmit T w (get_response_cmd le)).2.card =
        (T w.card (get_response_cmd le)).2 := rfl
    have hfeed2 : feed T (SCardTransmit T w (get_response_cmd le)).2.card
        (get_response_cmd c.2 :: cs.map chunkCmd) = cs.map chunkReply ++ [final] := by
      rw [hcard]; exact h2
    obtain ⟨it, ir, io⟩ := ih (SCardTransmit T w (get_response_cmd le)).2 c.1 c.2
      (full ++ c.1) n hfeed2 hn
    refine ⟨?_, ir, ?_⟩
    · rw [it]
      simp [SCardTransmit, exchanges, h1, chunkCmd]
    · intro hrc dF sw1 sw2 hdata hsw
      rw [io hrc dF sw1 sw2 hdata hsw]
      simp [List.append_assoc]

/-! ### The assembler around the loop -/

theorem TransmitAndGetResponse_fail {σ : Type} (T : Transport σ) (fuel : Nat) (w : World σ)
    (command : List Nat) (hrc : (T w.card command).1.rc ≠ SCARD_S_SUCCESS) :
    TransmitAndGetResponse T fuel w command =
      (Res.raise (Exn.runtime_error ("SCardTransmit error: " ++
        to_string (T w.card command).1.rc)), (SCardTransmit T w command).2) := by
  unfold TransmitAndGetResponse
  simp only [SCardTransmit, hrc, ne_eq, not_false_eq_true, if_true]

theorem TransmitAndGetResponse_pass {σ : Type} (T : Transport σ) (fuel : Nat) (w : World σ)
    (command : List Nat) (hrc : (T w.card command).1.rc = SCARD_S_SUCCESS)
    (h61 : ¬ moreData (T w.card command).1) :
    TransmitAndGetResponse T fuel w command =
      (Res.ok (T w.card command).1.data, (SCardTransmit T w command).2) := by
  unfold TransmitAndGetResponse
  have hn : ¬ ((T w.card command).1.data.length ≥ 2 ∧
      (T w.card command).1.data.getD ((T w.card command).1.data.length - 2) 0 = 0x61) := by
    rintro ⟨h1, h2⟩
    exact h61 ⟨hrc, h1, h2⟩
  simp only [SCardTransmit, hrc, ne_eq, not_true_eq_false, if_false, hn]

theorem TransmitAndGetResponse_chain {σ : Type} (T : Transport σ) (fuel : Nat) (w : World σ)
    (command : List Nat) (h61 : moreData (T w.card command).1) :
    (TransmitAndGetResponse T fuel w command).2 =
      (chainLoop T fuel (SCardTransmit T w command).2 (T w.card command).1.data
        (if (T w.card command).1.data.length > 2 then
          (T w.card command).1.data.take ((T w.card command).1.data.length - 2) else [])).2 ∧
    (TransmitAndGetResponse T fuel w command).1 =
      (match (chainLoop T fuel (SCardTransmit T w command).2 (T w.card command).1.data
        (if (T w.card command).1.data.length > 2 then
          (T w.card command).1.data.take ((T w.card command).1.data.length - 2) else [])).1 with
      | Res.ok (buf, full) =>
        Res.ok (full ++ [buf.getD (buf.length - 2) 0, buf.getD (buf.length - 1) 0])
      | Res.raise e => Res.raise e
      | Res.undefined => Res.undefined
      | Res.noFuel => Res.noFuel) := by
  obtain ⟨hrc, hlen, hb⟩ := h61
  unfold TransmitAndGetResponse
  have hy : ((T w.card command).1.data.length ≥ 2 ∧
      (T w.card command).1.data.getD ((T w.card command).1.data.length - 2) 0 = 0x61) :=
    ⟨hlen, hb⟩
  simp only [SCardTransmit, hrc, ne_eq, not_true_eq_false, if_false, hy, and_self, if_true]
  split <;> simp_all

theorem first_chunk_accumulate (d : List Nat) (a b : Nat) :
    (if (d ++ [a, b]).length > 2 then (d ++ [a, b]).take ((d ++ [a, b]).length - 2)
      else []) = d := by
  have h := accumulate_append_two [] d a b
  simp

theorem chunkReply_moreData (c : List Nat × Nat) : moreData (chunkReply c) := by
  refine ⟨rfl, ?_, ?_⟩
  · simp [chunkReply]
  · exact getD_append_two_fst c.1 0x61 c.2

theorem TransmitAndGetResponse_script {σ : Type} (T : Transport σ) (fuel : Nat) (w : World σ)
    (command : List Nat) (chunks : List (List Nat × Nat)) (final : Reply)
    (hfin : ¬ moreData final)
    (hfeed : feed T w.card (command :: chunks.map chunkCmd) = chunks.map chunkReply ++ [final])
    (hfuel : chunks.length ≤ fuel) :
    (TransmitAndGetResponse T fuel w command).2.trace =
        w.trace ++ exchanges (command :: chunks.map chunkCmd) (chunks.map chunkReply ++ [final]) ∧
    (final.rc ≠ SCARD_S_SUCCESS →
      (TransmitAndGetResponse T fuel w command).1 =
        Res.raise (Exn.runtime_error
          ((if chunks.isEmpty then "SCardTransmit error: " else "GET RESPONSE transmit error: ")
            ++ to_string final.rc))) ∧
    (final.rc = SCARD_S_SUCCESS → ∀ (dF : List Nat) (sw1 sw2 : Nat),
      final.data = dF ++ [sw1, sw2] → sw1 ≠ 0x61 →
      (TransmitAndGetResponse T fuel w command).1 =
        Res.ok ((chunks.map Prod.fst).flatten ++ dF ++ [sw1, sw2])) := by
  cases chunks with
  | nil =>
    simp only [List.map_nil, feed, List.nil_append, List.cons.injEq, and_true] at hfeed
    have htr : (SCardTransmit T w command).2.trace = w.trace ++ exchanges [command] [final] := by
      simp [SCardTransmit, exchanges, hfeed]
    by_cases hrc : final.rc = SCARD_S_SUCCESS
    · have hp := TransmitAndGetResponse_pass T fuel w command (by rw [hfeed]; exact hrc)
        (by rw [hfeed]; exact hfin)
      rw [hp, hfeed]
      refine ⟨by simpa using htr, fun h => absurd hrc h, ?_⟩
      intro _ dF sw1 sw2 hdata _
      simp [hdata]
    · have hp := TransmitAndGetResponse_fail T fuel w command (by rw [hfeed]; exact hrc)
      rw [hp, hfeed]
      refine ⟨by simpa using htr, fun _ => by simp, fun h => absurd h hrc⟩
  | cons c cs =>
    simp only [List.map_cons, feed, List.cons_append, List.cons.injEq] at hfeed
    obtain ⟨h1, h2⟩ := hfeed
    have hm : moreData (T w.card command).1 := by rw [h1]; exact chunkReply_moreData c
    obtain ⟨e2, e1⟩ := TransmitAndGetResponse_chain T fuel w command hm
    have hd : (T w.card command).1.data = c.1 ++ [0x61, c.2] := by rw [h1]; rfl
    rw [hd, first_chunk_accumulate] at e1 e2
    have hfeed2 : feed T (SCardTransmit T w command).2.card
        (get_response_cmd c.2 :: cs.map chunkCmd) = cs.map chunkReply ++ [final] := h2
    have hn : cs.length < fuel := by simp at hfuel; omega
    obtain ⟨it, ir, io⟩ := chainLoop_script T final hfin cs (SCardTransmit T w command).2
      c.1 c.2 c.1 fuel hfeed2 hn
    refine ⟨?_, ?_, ?_⟩
    · rw [e2, it]
      simp [SCardTransmit, exchanges, h1, chunkCmd]
    · intro hrc
      rw [e1, ir hrc]
      simp
    · intro hrc dF sw1 sw2 hdata hsw
      rw [e1, io hrc dF sw1 sw2 hdata hsw]
      dsimp only
      rw [getD_append_two_fst, getD_append_two_snd]
      simp only [List.append_assoc, List.map_cons, List.flatten_cons]

/-! ### Every run of the assembler is a chain of exchanges -/

theorem chainLoop_chain {σ : Type} (T : Transport σ) :
    ∀ (fuel : Nat) (w : World σ) (prev : Reply) (full : List Nat),
      prev.rc = SCARD_S_SUCCESS →
      ∃ (init : List Reply) (last : Reply) (rs : List Reply),
        prev :: rs = init ++ [last] ∧
        (chainLoop T fuel w prev.data full).2.trace =
          w.trace ++ exchanges (init.map (fun r => get_response_cmd (lastByte r))) rs ∧
        (∀ r ∈ init, moreData r) ∧
        ((chainLoop T fuel w prev.data full).1 ≠ Res.noFuel → ¬ moreData last) := by
  intro fuel
  induction fuel with
  | zero =>
    intro w prev full hrc
    by_cases hm : moreData prev
    · obtain ⟨_, hl, hb⟩ := hm
      have hl2 : ¬ prev.data.length < 2 := by omega
      have h0 : chainLoop T 0 w prev.data full = (Res.noFuel, w) := by
        rw [chainLoop.eq_def]
        simp only [hl2, if_false, hb, if_true]
      rw [h0]
      exact ⟨[], prev, [], rfl, by simp [exchanges], by simp, fun h => absurd rfl h⟩
    · refine ⟨[], prev, [], rfl, ?_, by simp, fun _ => hm⟩
      rw [chainLoop_stop T 0 w prev full hrc hm]
      simp [exchanges]
  | succ n ih =>
    intro w prev full hrc
    by_cases hm : moreData prev
    · obtain ⟨_, hl, hb⟩ := hm
      have hl2 : ¬ prev.data.length < 2 := by omega
      rw [chainLoop.eq_def]
      simp only [hl2, if_false, hb, if_true]
      by_cases hr1 : (SCardTransmit T w (get_response_cmd
          (prev.data.getD (prev.data.length - 1) 0))).1.rc = SCARD_S_SUCCESS
      · simp only [hr1, ne_eq, not_true_eq_false, if_false]
        obtain ⟨init, last, rs, hsplit, htr, hall, hlast⟩ := ih
          (SCardTransmit T w (get_response_cmd (prev.data.getD (prev.data.length - 1) 0))).2
          (SCardTransmit T w (get_response_cmd (prev.data.getD (prev.data.length - 1) 0))).1
          (if (SCardTransmit T w (get_response_cmd
              (prev.data.getD (prev.data.length - 1) 0))).1.data.length > 2 then
            full ++ (SCardTransmit T w (get_response_cmd
              (prev.data.getD (prev.data.length - 1) 0))).1.data.take
              ((SCardTransmit T w (get_response_cmd
              (prev.data.getD (prev.data.length - 1) 0))).1.data.length - 2)
           else full) hr1
        refine ⟨prev :: init, last,
          (SCardTransmit T w (get_response_cmd (prev.data.getD (prev.data.length - 1) 0))).1
            :: rs, ?_, ?_, ?_, hlast⟩
        · rw [hsplit]; rfl
        · rw [htr]
          simp [SCardTransmit, exchanges, lastByte]
        · intro r hr
          rcases List.mem_cons.mp hr with h | h
          · rw [h]; exact ⟨hrc, hl, hb⟩
          · exact hall r h
      · simp only [ne_eq, hr1, not_false_eq_true, if_true]
        refine ⟨[prev], (SCardTransmit T w (get_response_cmd
          (prev.data.getD (prev.data.length - 1) 0))).1,
          [(SCardTransmit T w (get_response_cmd
            (prev.data.getD (prev.data.length - 1) 0))).1], rfl, ?_, ?_, ?_⟩
        · simp [SCardTransmit, exchanges, lastByte]
        · intro r hr
          rw [List.mem_singleton.mp hr]
          exact ⟨hrc, hl, hb⟩
        · intro _ hm2
          exact hr1 hm2.1
    · refine ⟨[], prev, [], rfl, ?_, by simp, fun _ => hm⟩
      rw [chainLoop_stop T (n + 1) w prev full hrc hm]
      simp [exchanges]

/-! ### Claims about TransmitAndGetResponse -/

/-- C1: response chaining.  When the card answers the caller's command and
the GET RESPONSE commands that follow with `DATA_1 61 LE_1`, ...,
`DATA_n 61 LE_n` and then `DATA_f SW1 SW2` with `SW1 ≠ 0x61`, all with a
success code, TransmitAndGetResponse returns
`DATA_1 ++ ... ++ DATA_n ++ DATA_f ++ [SW1, SW2]` (given loop budget for the
`n` rounds).  The case `n = 0` is included. -/
theorem C1_response_chaining {σ : Type} (T : Transport σ) (fuel : Nat) (w : World σ)
    (command : List Nat) (chunks : List (List Nat × Nat)) (dataF : List Nat) (sw1 sw2 : Nat)
    (hsw : sw1 ≠ 0x61)
    (hT : feed T w.card (command :: chunks.map chunkCmd) =
      chunks.map chunkReply ++ [⟨SCARD_S_SUCCESS, dataF ++ [sw1, sw2]⟩])
    (hfuel : chunks.length ≤ fuel) :
    (TransmitAndGetResponse T fuel w command).1 =
      Res.ok ((chunks.map Prod.fst).flatten ++ dataF ++ [sw1, sw2]) := by
  have hfin : ¬ moreData ⟨SCARD_S_SUCCESS, dataF ++ [sw1, sw2]⟩ := by
    rintro ⟨_, _, h⟩
    exact hsw (by rw [← h]; exact (getD_append_two_fst dataF sw1 sw2).symm)
  exact (TransmitAndGetResponse_script T fuel w command chunks _ hfin hT hfuel).2.2 rfl
    dataF sw1 sw2 rfl hsw

/-- C1 at a scripted card that replies `AA BB 61 02` and then `CC DD 90 00`:
the assembled response is `AA BB CC DD 90 00`. -/
theorem C1_response_chaining_witness :
    (TransmitAndGetResponse scripted 1
      ⟨[⟨0, [0xAA, 0xBB, 0x61, 0x02]⟩, ⟨0, [0xCC, 0xDD, 0x90, 0x00]⟩], []⟩
      [0x00, 0xCA, 0x7F, 0x21, 0x00]).1 = Res.ok [0xAA, 0xBB, 0xCC, 0xDD, 0x90, 0x00] :=
  C1_response_chaining scripted 1
    ⟨[⟨0, [0xAA, 0xBB, 0x61, 0x02]⟩, ⟨0, [0xCC, 0xDD, 0x90, 0x00]⟩], []⟩
    [0x00, 0xCA, 0x7F, 0x21, 0x00] [([0xAA, 0xBB], 0x02)] [0xCC, 0xDD] 0x90 0x00
    (by decide) (by decide) (by decide)

/-- C2: pass-through.  A successful first reply whose second-to-last byte is
not 0x61 (or that has fewer than two bytes) is returned unchanged, and the
only command transmitted is the caller's. -/
theorem C2_pass_through {σ : Type} (T : Transport σ) (fuel : Nat) (w : World σ)
    (command : List Nat)
    (hrc : (T w.card command).1.rc = SCARD_S_SUCCESS)
    (h61 : (T w.card command).1.data.length < 2 ∨
      (T w.card command).1.data.getD ((T w.card command).1.data.length - 2) 0 ≠ 0x61) :
    (TransmitAndGetResponse T fuel w command).1 = Res.ok (T w.card command).1.data ∧
    (TransmitAndGetResponse T fuel w command).2.trace =
      w.trace ++ [Event.transmit command (T w.card command).1] := by
  have hm : ¬ moreData (T w.card command).1 := by
    rintro ⟨_, h1, h2⟩
    rcases h61 with h | h
    · omega
    · exact h h2
  rw [TransmitAndGetResponse_pass T fuel w command hrc hm]
  exact ⟨rfl, rfl⟩

/-- C2 at a scripted card that replies with the single byte `6A`: the reply
comes back unchanged and one command was transmitted. -/
theorem C2_pass_through_witness :
    (TransmitAndGetResponse scripted 0 ⟨[⟨0, [0x6A]⟩], []⟩ [0x00, 0xCA, 0x7F, 0x21, 0x00]).1 =
      Res.ok [0x6A] ∧
    (TransmitAndGetResponse scripted 0 ⟨[⟨0, [0x6A]⟩], []⟩ [0x00, 0xCA, 0x7F, 0x21, 0x00]).2.trace =
      [] ++ [Event.transmit [0x00, 0xCA, 0x7F, 0x21, 0x00] ⟨0, [0x6A]⟩] :=
  C2_pass_through scripted 0 ⟨[⟨0, [0x6A]⟩], []⟩ [0x00, 0xCA, 0x7F, 0x21, 0x00]
    (by decide) (by decide)

/-- C4: transport failure.  When the card answers with `DATA_i 61 LE_i`
(n ≥ 0 times) and the next transmission (the caller's command when n = 0, a
GET RESPONSE otherwise) returns a code `rc` other than success,
TransmitAndGetResponse throws a runtime error whose message ends in the
decimal `rc`, returns no bytes, and the failed transmission is the last
event of the trace. -/
theorem C4_transport_failure {σ : Type} (T : Transport σ) (fuel : Nat) (w : World σ)
    (command : List Nat) (chunks : List (List Nat × Nat)) (rc : Int) (junk : List Nat)
    (hrc : rc ≠ SCARD_S_SUCCESS)
    (hT : feed T w.card (command :: chunks.map chunkCmd) = chunks.map chunkReply ++ [⟨rc, junk⟩])
    (hfuel : chunks.length ≤ fuel) :
    (TransmitAndGetResponse T fuel w command).1 =
      Res.raise (Exn.runtime_error
        ((if chunks.isEmpty then "SCardTransmit error: " else "GET RESPONSE transmit error: ")
          ++ to_string rc)) ∧
    (TransmitAndGetResponse T fuel w command).2.trace =
      w.trace ++ exchanges (command :: chunks.map chunkCmd)
        (chunks.map chunkReply ++ [⟨rc, junk⟩]) := by
  have hfin : ¬ moreData ⟨rc, junk⟩ := fun h => hrc h.1
  obtain ⟨ht, hr, _⟩ := TransmitAndGetResponse_script T fuel w command chunks _ hfin hT hfuel
  exact ⟨hr hrc, ht⟩

/-- C4 at a scripted card that replies `AA 61 05` and then fails the GET
RESPONSE with code `-2146435062`: a runtime error carrying that code, and
exactly two commands in the trace. -/
theorem C4_transport_failure_witness :
    (TransmitAndGetResponse scripted 1 ⟨[⟨0, [0xAA, 0x61, 0x05]⟩, ⟨-2146435062, []⟩], []⟩
      [0x00, 0x20, 0x00, 0x81, 0x00]).1 =
      Res.raise (Exn.runtime_error "GET RESPONSE transmit error: -2146435062") ∧
    (TransmitAndGetResponse scripted 1 ⟨[⟨0, [0xAA, 0x61, 0x05]⟩, ⟨-2146435062, []⟩], []⟩
      [0x00, 0x20, 0x00, 0x81, 0x00]).2.trace =
      [Event.transmit [0x00, 0x20, 0x00, 0x81, 0x00] ⟨0, [0xAA, 0x61, 0x05]⟩,
       Event.transmit [0x00, 0xC0, 0x00, 0x00, 0x05] ⟨-2146435062, []⟩] := by
  have h := C4_transport_failure scripted 1
    ⟨[⟨0, [0xAA, 0x61, 0x05]⟩, ⟨-2146435062, []⟩], []⟩
    [0x00, 0x20, 0x00, 0x81, 0x00] [([0xAA], 0x05)] (-2146435062) []
    (by decide) (by decide) (by decide)
  exact ⟨h.1.trans (by decide), h.2.trans (by decide)⟩

/-! ### The command builders -/

/-- C8: ComputeSignature builder.  For data of at most 255 bytes and any
integer keyIndex the command is `00 2A 9E P2 Lc <data> 00` with
`Lc = len(data)`, where P2 is 0x9B for keyIndex 1, 0x9C for keyIndex 2 and
0x9A for every other integer.  The builder is a total function: it has no
failure result. -/
theorem C8_compute_signature_builder (data : List Nat) (keyIndex : Int)
    (hlen : data.length ≤ 255) :
    ∃ p2 : Nat,
      CreateComputeSignatureCommand data keyIndex =
        [0x00, 0x2A, 0x9E, p2, data.length] ++ data ++ [0x00] ∧
      (keyIndex = 1 → p2 = 0x9B) ∧
      (keyIndex = 2 → p2 = 0x9C) ∧
      (keyIndex ≠ 1 → keyIndex ≠ 2 → p2 = 0x9A) := by
  have hmod : data.length % 256 = data.length := Nat.mod_eq_of_lt (by omega)
  refine ⟨if keyIndex = 1 then 0x9B else if keyIndex = 2 then 0x9C else 0x9A, ?_, ?_, ?_, ?_⟩
  · simp only [CreateComputeSignatureCommand, hmod]
  · intro h; simp [h]
  · intro h; simp [h]
  · intro h1 h2; simp [h1, h2]

/-- C8 at data `01 02 03` and keyIndex `-7`: the command is
`00 2A 9E 9A 03 01 02 03 00`. -/
theorem C8_compute_signature_builder_witness :
    ∃ p2 : Nat,
      CreateComputeSignatureCommand [0x01, 0x02, 0x03] (-7) =
        [0x00, 0x2A, 0x9E, p2, [0x01, 0x02, 0x03].length] ++ [0x01, 0x02, 0x03] ++ [0x00] ∧
      ((-7 : Int) = 1 → p2 = 0x9B) ∧
      ((-7 : Int) = 2 → p2 = 0x9C) ∧
      ((-7 : Int) ≠ 1 → (-7 : Int) ≠ 2 → p2 = 0x9A) :=
  C8_compute_signature_builder [0x01, 0x02, 0x03] (-7) (by decide)

/-- The 22 hexadecimal digit characters. -/
theorem isHexDigit_mem (c : Nat) (h : isHexDigit c) :
    c ∈ [48, 49, 50, 51, 52, 53, 54, 55, 56, 57, 65, 66, 67, 68, 69, 70,
      97, 98, 99, 100, 101, 102] := by
  unfold isHexDigit at h
  rcases h with ⟨h1, h2⟩ | ⟨h1, h2⟩ | ⟨h1, h2⟩ <;> interval_cases c <;> simp

theorem strtol16_hex_pair_table :
    ∀ a ∈ [48, 49, 50, 51, 52, 53, 54, 55, 56, 57, 65, 66, 67, 68, 69, 70,
        97, 98, 99, 100, 101, 102],
      ∀ b ∈ [48, 49, 50, 51, 52, 53, 54, 55, 56, 57, 65, 66, 67, 68, 69, 70,
        97, 98, 99, 100, 101, 102],
      strtol16 (c_str [a, b]) = (((16 * hexValue a + hexValue b : Nat) : Int), []) ∧
      16 * hexValue a + hexValue b < 256 := by
  decide

theorem strtol16_hex_pair (a b : Nat) (ha : isHexDigit a) (hb : isHexDigit b) :
    strtol16 (c_str [a, b]) = (((16 * hexValue a + hexValue b : Nat) : Int), []) ∧
    16 * hexValue a + hexValue b < 256 :=
  strtol16_hex_pair_table a (isHexDigit_mem a ha) b (isHexDigit_mem b hb)

theorem HexToBytes_loop_hex :
    ∀ (n : Nat) (hex : List Nat), hex.length = 2 * n → (∀ c ∈ hex, isHexDigit c) →
      ∀ bytes : List Nat, HexToBytes.loop hex bytes = Res.ok (bytes ++ decodeHexPairs hex) := by
  intro n
  induction n with
  | zero =>
    intro hex hlen _ bytes
    have : hex = [] := List.length_eq_zero.mp (by omega)
    subst this
    simp [HexToBytes.loop, decodeHexPairs]
  | succ n ih =>
    intro hex hlen hall bytes
    match hex, hlen, hall with
    | a :: b :: rest, hlen, hall =>
      have ha : isHexDigit a := hall a (by simp)
      have hb : isHexDigit b := hall b (by simp)
      obtain ⟨hp, hlt⟩ := strtol16_hex_pair a b ha hb
      have hrest : rest.length = 2 * n := by simp at hlen; omega
      have hall2 : ∀ c ∈ rest, isHexDigit c := fun c hc => hall c (by simp [hc])
      have hbyte : ((((16 * hexValue a + hexValue b : Nat) : Int)) % 256).toNat =
          16 * hexValue a + hexValue b := by omega
      rw [HexToBytes.loop, hp]
      simp only [deref, List.headD_nil, ne_eq, not_true_eq_false, if_false]
      rw [ih rest hrest hall2, hbyte]
      simp [decodeHexPairs]
    | [_], hlen, _ => simp at hlen; omega
    | [], hlen, _ => simp at hlen

theorem decodeHexPairs_length :
    ∀ (n : Nat) (hex : List Nat), hex.length = 2 * n → (decodeHexPairs hex).length = n := by
  intro n
  induction n with
  | zero =>
    intro hex hlen
    have : hex = [] := List.length_eq_zero.mp (by omega)
    subst this
    simp [decodeHexPairs]
  | succ n ih =>
    intro hex hlen
    match hex, hlen with
    | a :: b :: rest, hlen =>
      have hrest : rest.length = 2 * n := by simp at hlen; omega
      simp [decodeHexPairs, ih rest hrest]
    | [_], hlen => simp at hlen; omega
    | [], hlen => simp at hlen

/-- C9: SelectApplet builder.  For an even-length string of hexadecimal
digits that decodes (pairwise, high digit first) to the bytes `B`, the
command is `00 A4 04 00`, one Lc byte (`len(B) mod 256`), then `B`, then
`00`; its length is `5 + len(B) + 1`, and `B` has one byte for each pair of
characters. -/
theorem C9_select_applet_builder (appletID : List Nat)
    (heven : appletID.length % 2 = 0) (hhex : ∀ c ∈ appletID, isHexDigit c) :
    CreateSelectAppletCommand appletID =
      Res.ok ([0x00, 0xA4, 0x04, 0x00, (decodeHexPairs appletID).length % 256] ++
        decodeHexPairs appletID ++ [0x00]) ∧
    ([0x00, 0xA4, 0x04, 0x00, (decodeHexPairs appletID).length % 256] ++
        decodeHexPairs appletID ++ [0x00]).length = 5 + (decodeHexPairs appletID).length + 1 ∧
    (decodeHexPairs appletID).length = appletID.length / 2 := by
  have hlen : appletID.length = 2 * (appletID.length / 2) := by omega
  have hloop := HexToBytes_loop_hex (appletID.length / 2) appletID hlen hhex []
  refine ⟨?_, ?_, decodeHexPairs_length _ appletID hlen⟩
  · unfold CreateSelectAppletCommand HexToBytes
    simp only [heven, ne_eq, not_true_eq_false, if_false, hloop, List.nil_append, Res.bind]
  · simp
    omega

/-- C9 at the applet identifier `A000000063504B43532D3135`: the command is
`00 A4 04 00 0C A0 00 00 00 63 50 4B 43 53 2D 31 35 00`, 18 bytes. -/
theorem C9_select_applet_builder_witness :
    CreateSelectAppletCommand (ascii "A000000063504B43532D3135") =
      Res.ok [0x00, 0xA4, 0x04, 0x00, 0x0C, 0xA0, 0x00, 0x00, 0x00, 0x63, 0x50, 0x4B, 0x43,
        0x53, 0x2D, 0x31, 0x35, 0x00] ∧
    (decodeHexPairs (ascii "A000000063504B43532D3135")).length = 12 := by
  have h := C9_select_applet_builder (ascii "A000000063504B43532D3135")
    (by decide) (by decide)
  exact ⟨h.1.trans (by decide), h.2.2.trans (by decide)⟩

/-- C10: the SelectApplet builder does not reject every string with a
character that is no hexadecimal digit.  For `+1`, `-1` and ` 1` (a sign or a
blank, then a digit) `strtol` parses the pair to the end, `HexToBytes`
raises nothing, and a command carrying the byte `01`, `FF`, `01` is built;
a pair such as `g1` is rejected with "Invalid hex character". -/
theorem C10_select_applet_accepts_sign_and_blank :
    CreateSelectAppletCommand (ascii "+1") = Res.ok [0x00, 0xA4, 0x04, 0x00, 0x01, 0x01, 0x00] ∧
    CreateSelectAppletCommand (ascii "-1") = Res.ok [0x00, 0xA4, 0x04, 0x00, 0x01, 0xFF, 0x00] ∧
    CreateSelectAppletCommand (ascii " 1") = Res.ok [0x00, 0xA4, 0x04, 0x00, 0x01, 0x01, 0x00] ∧
    ¬ (∀ c ∈ ascii "+1", isHexDigit c) ∧
    CreateSelectAppletCommand (ascii "g1") =
      Res.raise (Exn.runtime_error "Invalid hex character") := by
  decide

/-! ### Traces -/

theorem sentCommands_append (a b : List Event) :
    sentCommands (a ++ b) = sentCommands a ++ sentCommands b := by
  induction a with
  | nil => rfl
  | cons e es ih => cases e <;> simp [sentCommands, ih]

theorem reported_append (a b : List Event) :
    reported (a ++ b) = reported a ++ reported b := by
  induction a with
  | nil => rfl
  | cons e es ih => cases e <;> simp [reported, ih]

theorem sentCommands_cleanup {σ : Type} (h : Handles) (w : World σ) :
    sentCommands (CardOperation.cleanup h w).trace = sentCommands w.trace := by
  unfold CardOperation.cleanup
  by_cases h1 : h.hCard = 0 <;> by_cases h2 : h.hContext = 0 <;>
    simp [h1, h2, sentCommands_append, sentCommands]

theorem reported_cleanup {σ : Type} (h : Handles) (w : World σ) :
    reported (CardOperation.cleanup h w).trace = reported w.trace := by
  unfold CardOperation.cleanup
  by_cases h1 : h.hCard = 0 <;> by_cases h2 : h.hContext = 0 <;>
    simp [h1, h2, reported_append, reported]

theorem sentCommands_openedWorld {σ : Type} (P : Pcsc) (w : World σ) :
    sentCommands (openedWorld P w).trace = sentCommands w.trace := by
  simp [openedWorld, sentCommands_append, sentCommands]

theorem reported_openedWorld {σ : Type} (P : Pcsc) (w : World σ) :
    reported (openedWorld P w).trace = reported w.trace := by
  simp [openedWorld, reported_append, reported]

/-! ### An open session -/

theorem tryBlock_open {σ : Type} (P : Pcsc) (operation : Nat → Prog σ Unit) (w : World σ)
    (hP : sessionOpens P) :
    CardOperation.tryBlock P operation w =
      (((operation P.connect.2 (openedWorld P w)).1, ⟨P.establishContext.2, P.connect.2⟩),
        (operation P.connect.2 (openedWorld P w)).2) := by
  obtain ⟨h1, h2, h3, h4, h5, h6⟩ := hP
  unfold CardOperation.tryBlock openedWorld
  simp [h1, h2, h3, h4, h5, h6]

/-! ### Single replies and status words -/

theorem TransmitAndGetResponse_single {σ : Type} (T : Transport σ) (fuel : Nat) (w : World σ)
    (command d : List Nat) (sw1 sw2 : Nat)
    (h : (T w.card command).1 = ⟨SCARD_S_SUCCESS, d ++ [sw1, sw2]⟩) (hsw : sw1 ≠ 0x61) :
    TransmitAndGetResponse T fuel w command =
      (Res.ok (d ++ [sw1, sw2]),
        { card := (T w.card command).2,
          trace := w.trace ++ [Event.transmit command ⟨SCARD_S_SUCCESS, d ++ [sw1, sw2]⟩] }) := by
  have hm : ¬ moreData (T w.card command).1 := by
    rw [h]
    rintro ⟨_, _, h6⟩
    exact hsw (by rw [← h6]; exact (getD_append_two_fst d sw1 sw2).symm)
  rw [TransmitAndGetResponse_pass T fuel w command (by rw [h]) hm]
  simp [SCardTransmit, h]

theorem statusNot9000_append (d : List Nat) (sw1 sw2 : Nat) :
    statusNot9000 (d ++ [sw1, sw2]) = Res.ok (decide (sw2 ≠ 0x00 ∨ sw1 ≠ 0x90)) := by
  unfold statusNot9000
  rw [getD_append_two_fst, getD_append_two_snd]
  have h0 : ¬ (d ++ [sw1, sw2]).length = 0 := by simp
  have h2 : ¬ (d ++ [sw1, sw2]).length < 2 := by simp
  simp only [h0, h2, if_false]
  by_cases hs : sw2 = 0x00
  · simp [hs]
  · simp [hs]

theorem statusNot9000_ok (d : List Nat) :
    statusNot9000 (d ++ [0x90, 0x00]) = Res.ok false := by
  rw [statusNot9000_append]
  simp

theorem statusNot9000_bad (d : List Nat) (sw1 sw2 : Nat) (h : ¬ (sw1 = 0x90 ∧ sw2 = 0x00)) :
    statusNot9000 (d ++ [sw1, sw2]) = Res.ok true := by
  rw [statusNot9000_append]
  have : sw2 ≠ 0x00 ∨ sw1 ≠ 0x90 := by
    by_cases h2 : sw2 = 0x00
    · right
      intro h1
      exact h ⟨h1, h2⟩
    · left
      exact h2
  simp only [this, decide_True]

theorem sw1Not90_append (d : List Nat) (sw1 sw2 : Nat) :
    sw1Not90 (d ++ [sw1, sw2]) = decide (sw1 ≠ 0x90) := by
  unfold sw1Not90
  rw [getD_append_two_fst]
  simp

theorem withoutStatus_append (d : List Nat) (sw1 sw2 : Nat) :
    withoutStatus (d ++ [sw1, sw2]) = d :=
  take_append_two d sw1 sw2

/-! ### The Sign operation -/

theorem Prog.bind_apply {σ α β : Type} (m : Prog σ α) (f : α → Prog σ β) (w : World σ) :
    Prog.bind m f w =
      match m w with
      | (Res.ok v, w1) => f v w1
      | (Res.raise e, w1) => (Res.raise e, w1)
      | (Res.undefined, w1) => (Res.undefined, w1)
      | (Res.noFuel, w1) => (Res.noFuel, w1) := rfl

theorem Prog.lift_apply {σ α : Type} (r : Res α) (w : World σ) :
    (Prog.lift r : Prog σ α) w = (r, w) := rfl

theorem argAt_some (args : EncodableMap) (key : String) (v : EncodableValue)
    (h : args.lookup key = some v) : argAt (some args) key = Res.ok v := by
  simp [argAt, h]

theorem HandleSign_operation_success {σ : Type} (T : Transport σ) (fuel : Nat) (w : World σ)
    (args : EncodableMap) (appletID pin dataToSign : List Nat) (keyIndex : Int)
    (select_cmd d1 d2 signature : List Nat) (hCard : Nat)
    (ha : args.lookup "appletID" = some (EncodableValue.string appletID))
    (hp : args.lookup "pin" = some (EncodableValue.string pin))
    (hd : args.lookup "dataToSign" = some (EncodableValue.uint8list dataToSign))
    (hk : args.lookup "keyIndex" = some (EncodableValue.int32 keyIndex))
    (hsel : CreateSelectAppletCommand appletID = Res.ok select_cmd)
    (hT : feed T w.card [select_cmd, CreateVerifyPinCommand pin,
        CreateComputeSignatureCommand dataToSign keyIndex] =
      [⟨SCARD_S_SUCCESS, d1 ++ [0x90, 0x00]⟩, ⟨SCARD_S_SUCCESS, d2 ++ [0x90, 0x00]⟩,
       ⟨SCARD_S_SUCCESS, signature ++ [0x90, 0x00]⟩]) :
    (HandleSign.operation T fuel (some args) hCard w).1 = Res.ok () ∧
    (HandleSign.operation T fuel (some args) hCard w).2.trace =
      w.trace ++ exchanges [select_cmd, CreateVerifyPinCommand pin,
          CreateComputeSignatureCommand dataToSign keyIndex]
        [⟨SCARD_S_SUCCESS, d1 ++ [0x90, 0x00]⟩, ⟨SCARD_S_SUCCESS, d2 ++ [0x90, 0x00]⟩,
         ⟨SCARD_S_SUCCESS, signature ++ [0x90, 0x00]⟩] ++ [Event.success signature] := by
  simp only [feed, List.cons.injEq, and_true] at hT
  obtain ⟨h1, h2, h3⟩ := hT
  have e1 := TransmitAndGetResponse_single T fuel w select_cmd d1 0x90 0x00 h1 (by decide)
  have e2 := TransmitAndGetResponse_single T fuel
    { card := (T w.card select_cmd).2,
      trace := w.trace ++ [Event.transmit select_cmd ⟨SCARD_S_SUCCESS, d1 ++ [0x90, 0x00]⟩] }
    (CreateVerifyPinCommand pin) d2 0x90 0x00 h2 (by decide)
  have e3 := TransmitAndGetResponse_single T fuel
    { card := (T (T w.card select_cmd).2 (CreateVerifyPinCommand pin)).2,
      trace := w.trace ++ [Event.transmit select_cmd ⟨SCARD_S_SUCCESS, d1 ++ [0x90, 0x00]⟩] ++
        [Event.transmit (CreateVerifyPinCommand pin) ⟨SCARD_S_SUCCESS, d2 ++ [0x90, 0x00]⟩] }
    (CreateComputeSignatureCommand dataToSign keyIndex) signature 0x90 0x00 h3 (by decide)
  simp only [HandleSign.operation, Prog.bind_apply, Prog.lift_apply, argAt_some _ _ _ ha,
    argAt_some _ _ _ hp, argAt_some _ _ _ hd, argAt_some _ _ _ hk, Res.bind, getString, getBytes,
    getInt, hsel, e1, e2, e3, statusNot9000_ok, withoutStatus_append, emit, exchanges,
    Bool.false_eq_true, if_false]
  simp

theorem CardOperation_open_ok {σ : Type} (P : Pcsc) (operation : Nat → Prog σ Unit)
    (w : World σ) (hP : sessionOpens P)
    (hop : (operation P.connect.2 (openedWorld P w)).1 = Res.ok ()) :
    CardOperation P operation w =
      (Res.ok (), CardOperation.cleanup ⟨P.establishContext.2, P.connect.2⟩
        (operation P.connect.2 (openedWorld P w)).2) := by
  unfold CardOperation
  simp only [tryBlock_open P operation w hP, hop]

theorem CardOperation_open_runtime_error {σ : Type} (P : Pcsc) (operation : Nat → Prog σ Unit)
    (w : World σ) (what : String) (hP : sessionOpens P)
    (hop : (operation P.connect.2 (openedWorld P w)).1 = Res.raise (Exn.runtime_error what)) :
    CardOperation P operation w =
      (Res.ok (), CardOperation.cleanup ⟨P.establishContext.2, P.connect.2⟩
        { card := (operation P.connect.2 (openedWorld P w)).2.card,
          trace := (operation P.connect.2 (openedWorld P w)).2.trace ++
            [Event.error "PC/SC_ERROR" what] }) := by
  unfold CardOperation
  simp only [tryBlock_open P operation w hP, hop]

theorem HandleSign_operation_wrong_pin {σ : Type} (T : Transport σ) (fuel : Nat) (w : World σ)
    (args : EncodableMap) (appletID pin dataToSign : List Nat) (keyIndex : Int)
    (select_cmd d1 d2 : List Nat) (sw1 sw2 : Nat) (hCard : Nat)
    (ha : args.lookup "appletID" = some (EncodableValue.string appletID))
    (hp : args.lookup "pin" = some (EncodableValue.string pin))
    (hd : args.lookup "dataToSign" = some (EncodableValue.uint8list dataToSign))
    (hk : args.lookup "keyIndex" = some (EncodableValue.int32 keyIndex))
    (hsel : CreateSelectAppletCommand appletID = Res.ok select_cmd)
    (hT : feed T w.card [select_cmd, CreateVerifyPinCommand pin] =
      [⟨SCARD_S_SUCCESS, d1 ++ [0x90, 0x00]⟩, ⟨SCARD_S_SUCCESS, d2 ++ [sw1, sw2]⟩])
    (hsw : ¬ (sw1 = 0x90 ∧ sw2 = 0x00)) (h61 : sw1 ≠ 0x61) :
    (HandleSign.operation T fuel (some args) hCard w).1 =
      Res.raise (Exn.runtime_error "Xác thực PIN thất bại.") ∧
    (HandleSign.operation T fuel (some args) hCard w).2.trace =
      w.trace ++ exchanges [select_cmd, CreateVerifyPinCommand pin]
        [⟨SCARD_S_SUCCESS, d1 ++ [0x90, 0x00]⟩, ⟨SCARD_S_SUCCESS, d2 ++ [sw1, sw2]⟩] := by
  simp only [feed, List.cons.injEq, and_true] at hT
  obtain ⟨h1, h2⟩ := hT
  have e1 := TransmitAndGetResponse_single T fuel w select_cmd d1 0x90 0x00 h1 (by decide)
  have e2 := TransmitAndGetResponse_single T fuel
    { card := (T w.card select_cmd).2,
      trace := w.trace ++ [Event.transmit select_cmd ⟨SCARD_S_SUCCESS, d1 ++ [0x90, 0x00]⟩] }
    (CreateVerifyPinCommand pin) d2 sw1 sw2 h2 h61
  simp only [HandleSign.operation, Prog.bind_apply, Prog.lift_apply, argAt_some _ _ _ ha,
    argAt_some _ _ _ hp, argAt_some _ _ _ hd, argAt_some _ _ _ hk, Res.bind, getString, getBytes,
    getInt, hsel, e1, e2, statusNot9000_ok, statusNot9000_bad d2 sw1 sw2 hsw, throwRuntime,
    exchanges, Bool.false_eq_true, if_false, if_true]
  simp

/-- C5: Sign success protocol.  With an open session, arguments of the right
types, an applet identifier the SelectApplet builder accepts, and a card that
answers the three commands with replies ending in `90 00`, the Sign
operation transmits exactly SelectApplet(applet), VerifyPin(pin),
ComputeSignature(data, keyIndex), in this order, and reports one result:
success with the third reply minus its two status bytes. -/
theorem C5_sign_success {σ : Type} (P : Pcsc) (T : Transport σ) (fuel : Nat) (w : World σ)
    (args : EncodableMap) (appletID pin dataToSign : List Nat) (keyIndex : Int)
    (select_cmd d1 d2 signature : List Nat)
    (hP : sessionOpens P)
    (ha : args.lookup "appletID" = some (EncodableValue.string appletID))
    (hp : args.lookup "pin" = some (EncodableValue.string pin))
    (hd : args.lookup "dataToSign" = some (EncodableValue.uint8list dataToSign))
    (hk : args.lookup "keyIndex" = some (EncodableValue.int32 keyIndex))
    (hsel : CreateSelectAppletCommand appletID = Res.ok select_cmd)
    (hT : feed T w.card [select_cmd, CreateVerifyPinCommand pin,
        CreateComputeSignatureCommand dataToSign keyIndex] =
      [⟨SCARD_S_SUCCESS, d1 ++ [0x90, 0x00]⟩, ⟨SCARD_S_SUCCESS, d2 ++ [0x90, 0x00]⟩,
       ⟨SCARD_S_SUCCESS, signature ++ [0x90, 0x00]⟩]) :
    sentCommands (HandleSign P T fuel (some args) w).2.trace =
      sentCommands w.trace ++ [select_cmd, CreateVerifyPinCommand pin,
        CreateComputeSignatureCommand dataToSign keyIndex] ∧
    reported (HandleSign P T fuel (some args) w).2.trace =
      reported w.trace ++ [Event.success signature] := by
  obtain ⟨hr, ht⟩ := HandleSign_operation_success T fuel (openedWorld P w) args appletID pin
    dataToSign keyIndex select_cmd d1 d2 signature P.connect.2 ha hp hd hk hsel hT
  unfold HandleSign
  rw [CardOperation_open_ok P _ w hP hr]
  simp only [sentCommands_cleanup, reported_cleanup, ht, sentCommands_append, reported_append,
    sentCommands_openedWorld, reported_openedWorld]
  simp [exchanges, sentCommands, reported]

/-- C5 at the end-to-end scenario (applet `A000000063504B43532D3135`, PIN
`123456`, data `01 02 03`, keyIndex 1) on a scripted card that answers
`90 00`, `90 00`, `AB CD 90 00`: three APDUs, the third with P2 = 0x9B, and
the signature `AB CD` is reported. -/
theorem C5_sign_success_witness :
    sentCommands (HandleSign pcscReady scripted 0 (some scenarioSignArgs)
      ⟨[⟨0, [0x90, 0x00]⟩, ⟨0, [0x90, 0x00]⟩, ⟨0, [0xAB, 0xCD, 0x90, 0x00]⟩], []⟩).2.trace =
      [[0x00, 0xA4, 0x04, 0x00, 0x0C, 0xA0, 0x00, 0x00, 0x00, 0x63, 0x50, 0x4B, 0x43, 0x53,
          0x2D, 0x31, 0x35, 0x00],
        [0x00, 0x20, 0x00, 0x81, 0x06, 0x31, 0x32, 0x33, 0x34, 0x35, 0x36],
        [0x00, 0x2A, 0x9E, 0x9B, 0x03, 0x01, 0x02, 0x03, 0x00]] ∧
    reported (HandleSign pcscReady scripted 0 (some scenarioSignArgs)
      ⟨[⟨0, [0x90, 0x00]⟩, ⟨0, [0x90, 0x00]⟩, ⟨0, [0xAB, 0xCD, 0x90, 0x00]⟩], []⟩).2.trace =
      [Event.success [0xAB, 0xCD]] := by
  have h := C5_sign_success pcscReady scripted 0
    ⟨[⟨0, [0x90, 0x00]⟩, ⟨0, [0x90, 0x00]⟩, ⟨0, [0xAB, 0xCD, 0x90, 0x00]⟩], []⟩
    scenarioSignArgs (ascii "A000000063504B43532D3135") (ascii "123456") [0x01, 0x02, 0x03] 1
    [0x00, 0xA4, 0x04, 0x00, 0x0C, 0xA0, 0x00, 0x00, 0x00, 0x63, 0x50, 0x4B, 0x43, 0x53,
      0x2D, 0x31, 0x35, 0x00] [] [] [0xAB, 0xCD]
    (by decide) (by decide) (by decide) (by decide) (by decide) (by decide) (by decide)
  exact ⟨h.1.trans (by decide), h.2.trans (by decide)⟩

/-- C6 as stated fails: the VerifyPin reply `61 00` carries a status word
other than 0x9000, yet the assembler follows it with a GET RESPONSE, the
assembled response `90 00` passes the check, ComputeSignature is transmitted
(four APDUs in all) and the operation reports a signature. -/
theorem C6_counterexample :
    receivedReplies (HandleSign pcscReady scripted 1 (some scenarioSignArgs)
      ⟨[⟨0, [0x90, 0x00]⟩, ⟨0, [0x61, 0x00]⟩, ⟨0, [0x90, 0x00]⟩, ⟨0, [0xAB, 0x90, 0x00]⟩],
        []⟩).2.trace =
      [⟨0, [0x90, 0x00]⟩, ⟨0, [0x61, 0x00]⟩, ⟨0, [0x90, 0x00]⟩, ⟨0, [0xAB, 0x90, 0x00]⟩] ∧
    sentCommands (HandleSign pcscReady scripted 1 (some scenarioSignArgs)
      ⟨[⟨0, [0x90, 0x00]⟩, ⟨0, [0x61, 0x00]⟩, ⟨0, [0x90, 0x00]⟩, ⟨0, [0xAB, 0x90, 0x00]⟩],
        []⟩).2.trace =
      [[0x00, 0xA4, 0x04, 0x00, 0x0C, 0xA0, 0x00, 0x00, 0x00, 0x63, 0x50, 0x4B, 0x43, 0x53,
          0x2D, 0x31, 0x35, 0x00],
        [0x00, 0x20, 0x00, 0x81, 0x06, 0x31, 0x32, 0x33, 0x34, 0x35, 0x36],
        [0x00, 0xC0, 0x00, 0x00, 0x00],
        CreateComputeSignatureCommand [0x01, 0x02, 0x03] 1] ∧
    reported (HandleSign pcscReady scripted 1 (some scenarioSignArgs)
      ⟨[⟨0, [0x90, 0x00]⟩, ⟨0, [0x61, 0x00]⟩, ⟨0, [0x90, 0x00]⟩, ⟨0, [0xAB, 0x90, 0x00]⟩],
        []⟩).2.trace = [Event.success [0xAB]] := by
  decide

/-- C6, amended: in the Sign operation, if the SelectApplet reply ends in
`90 00` and the VerifyPin reply carries a status word other than 0x9000
whose first byte is not 0x61, the operation reports exactly one result, the
error `PC/SC_ERROR` with the message of the PIN-verification step, no
signature, and exactly two APDUs are transmitted: SelectApplet and
VerifyPin, never ComputeSignature. -/
theorem C6_sign_wrong_pin {σ : Type} (P : Pcsc) (T : Transport σ) (fuel : Nat) (w : World σ)
    (args : EncodableMap) (appletID pin dataToSign : List Nat) (keyIndex : Int)
    (select_cmd d1 d2 : List Nat) (sw1 sw2 : Nat)
    (hP : sessionOpens P)
    (ha : args.lookup "appletID" = some (EncodableValue.string appletID))
    (hp : args.lookup "pin" = some (EncodableValue.string pin))
    (hd : args.lookup "dataToSign" = some (EncodableValue.uint8list dataToSign))
    (hk : args.lookup "keyIndex" = some (EncodableValue.int32 keyIndex))
    (hsel : CreateSelectAppletCommand appletID = Res.ok select_cmd)
    (hT : feed T w.card [select_cmd, CreateVerifyPinCommand pin] =
      [⟨SCARD_S_SUCCESS, d1 ++ [0x90, 0x00]⟩, ⟨SCARD_S_SUCCESS, d2 ++ [sw1, sw2]⟩])
    (hsw : ¬ (sw1 = 0x90 ∧ sw2 = 0x00)) (h61 : sw1 ≠ 0x61) :
    sentCommands (HandleSign P T fuel (some args) w).2.trace =
      sentCommands w.trace ++ [select_cmd, CreateVerifyPinCommand pin] ∧
    reported (HandleSign P T fuel (some args) w).2.trace =
      reported w.trace ++ [Event.error "PC/SC_ERROR" "Xác thực PIN thất bại."] := by
  obtain ⟨hr, ht⟩ := HandleSign_operation_wrong_pin T fuel (openedWorld P w) args appletID pin
    dataToSign keyIndex select_cmd d1 d2 sw1 sw2 P.connect.2 ha hp hd hk hsel hT hsw h61
  unfold HandleSign
  rw [CardOperation_open_runtime_error P _ w _ hP hr]
  simp only [sentCommands_cleanup, reported_cleanup, ht, sentCommands_append, reported_append,
    sentCommands_openedWorld, reported_openedWorld]
  simp [exchanges, sentCommands, reported]

/-- C6 (amended) at the failure scenario: the VerifyPin reply is `63 C2`
(wrong PIN, two tries left); two APDUs are sent and the PIN error is reported. -/
theorem C6_sign_wrong_pin_witness :
    sentCommands (HandleSign pcscReady scripted 0 (some scenarioSignArgs)
      ⟨[⟨0, [0x90, 0x00]⟩, ⟨0, [0x63, 0xC2]⟩, ⟨0, [0xAB, 0xCD, 0x90, 0x00]⟩], []⟩).2.trace =
      [[0x00, 0xA4, 0x04, 0x00, 0x0C, 0xA0, 0x00, 0x00, 0x00, 0x63, 0x50, 0x4B, 0x43, 0x53,
          0x2D, 0x31, 0x35, 0x00],
        [0x00, 0x20, 0x00, 0x81, 0x06, 0x31, 0x32, 0x33, 0x34, 0x35, 0x36]] ∧
    reported (HandleSign pcscReady scripted 0 (some scenarioSignArgs)
      ⟨[⟨0, [0x90, 0x00]⟩, ⟨0, [0x63, 0xC2]⟩, ⟨0, [0xAB, 0xCD, 0x90, 0x00]⟩], []⟩).2.trace =
      [Event.error "PC/SC_ERROR" "Xác thực PIN thất bại."] := by
  have h := C6_sign_wrong_pin pcscReady scripted 0
    ⟨[⟨0, [0x90, 0x00]⟩, ⟨0, [0x63, 0xC2]⟩, ⟨0, [0xAB, 0xCD, 0x90, 0x00]⟩], []⟩
    scenarioSignArgs (ascii "A000000063504B43532D3135") (ascii "123456") [0x01, 0x02, 0x03] 1
    [0x00, 0xA4, 0x04, 0x00, 0x0C, 0xA0, 0x00, 0x00, 0x00, 0x63, 0x50, 0x4B, 0x43, 0x53,
      0x2D, 0x31, 0x35, 0x00] [] [] 0x63 0xC2
    (by decide) (by decide) (by decide) (by decide) (by decide) (by decide) (by decide)
    (by decide) (by decide)
  exact ⟨h.1.trans (by decide), h.2.trans (by decide)⟩

/-- C7: the status word is not checked in full on every path.  In
GetPublicKey a SelectApplet reply `90 01` (status word other than 0x9000)
counts as success: the GetRsaPublicKey command is still transmitted and the
key is reported.  In Sign the same reply stops the operation after one
command, as the claim says. -/
theorem C7_get_public_key_accepts_9001 :
    sentCommands (HandleGetPublicKey pcscReady scripted 0 (some scenarioKeyArgs)
      ⟨[⟨0, [0x90, 0x01]⟩, ⟨0, [0xAA, 0x90, 0x01]⟩], []⟩).2.trace =
      [[0x00, 0xA4, 0x04, 0x00, 0x0C, 0xA0, 0x00, 0x00, 0x00, 0x63, 0x50, 0x4B, 0x43, 0x53,
          0x2D, 0x31, 0x35, 0x00],
        [0x00, 0x47, 0x81, 0x00, 0x02, 0xB6, 0x00, 0x00]] ∧
    reported (HandleGetPublicKey pcscReady scripted 0 (some scenarioKeyArgs)
      ⟨[⟨0, [0x90, 0x01]⟩, ⟨0, [0xAA, 0x90, 0x01]⟩], []⟩).2.trace =
      [Event.success [0xAA]] ∧
    sentCommands (HandleSign pcscReady scripted 0 (some scenarioSignArgs)
      ⟨[⟨0, [0x90, 0x01]⟩, ⟨0, [0x90, 0x00]⟩, ⟨0, [0xAB, 0x90, 0x00]⟩], []⟩).2.trace =
      [[0x00, 0xA4, 0x04, 0x00, 0x0C, 0xA0, 0x00, 0x00, 0x00, 0x63, 0x50, 0x4B, 0x43, 0x53,
          0x2D, 0x31, 0x35, 0x00]] ∧
    reported (HandleSign pcscReady scripted 0 (some scenarioSignArgs)
      ⟨[⟨0, [0x90, 0x01]⟩, ⟨0, [0x90, 0x00]⟩, ⟨0, [0xAB, 0x90, 0x00]⟩], []⟩).2.trace =
      [Event.error "PC/SC_ERROR" "Chọn Applet thất bại."] := by
  decide

/-! ### The remaining builders -/

/-- C11: GetRsaPublicKey builder.  For the roles `sig`, `dec`, `aut`, `sm`
the command is `00 47 81 00 02 T 00 00` with `T` = B6, B8, A4, A6; for every
other string, among them `SIG` and the empty string, the builder throws the
runtime error "Invalid key role." and builds no command. -/
theorem C11_get_rsa_public_key_builder :
    CreateGetRsaPublicKeyCommand (ascii "sig") =
      Res.ok [0x00, 0x47, 0x81, 0x00, 0x02, 0xB6, 0x00, 0x00] ∧
    CreateGetRsaPublicKeyCommand (ascii "dec") =
      Res.ok [0x00, 0x47, 0x81, 0x00, 0x02, 0xB8, 0x00, 0x00] ∧
    CreateGetRsaPublicKeyCommand (ascii "aut") =
      Res.ok [0x00, 0x47, 0x81, 0x00, 0x02, 0xA4, 0x00, 0x00] ∧
    CreateGetRsaPublicKeyCommand (ascii "sm") =
      Res.ok [0x00, 0x47, 0x81, 0x00, 0x02, 0xA6, 0x00, 0x00] ∧
    (∀ keyRole : List Nat, keyRole ≠ ascii "sig" → keyRole ≠ ascii "dec" →
      keyRole ≠ ascii "aut" → keyRole ≠ ascii "sm" →
      CreateGetRsaPublicKeyCommand keyRole =
        Res.raise (Exn.runtime_error "Invalid key role.")) ∧
    CreateGetRsaPublicKeyCommand (ascii "SIG") =
      Res.raise (Exn.runtime_error "Invalid key role.") ∧
    CreateGetRsaPublicKeyCommand (ascii "") =
      Res.raise (Exn.runtime_error "Invalid key role.") := by
  refine ⟨by decide, by decide, by decide, by decide, ?_, by decide, by decide⟩
  intro keyRole h1 h2 h3 h4
  simp only [CreateGetRsaPublicKeyCommand, h1, h2, h3, h4, if_false, Res.bind]

/-- C12: VerifyPin builder.  For a PIN of at most 255 bytes the command is
`00 20 00 81 Lc` followed by the PIN's bytes and nothing else, with
`Lc = len(pin)`; its length is `5 + len(pin)`.  The builder is a total
function: it has no failure result. -/
theorem C12_verify_pin_builder (pin : List Nat) (hlen : pin.length ≤ 255) :
    CreateVerifyPinCommand pin = [0x00, 0x20, 0x00, 0x81, pin.length] ++ pin ∧
    (CreateVerifyPinCommand pin).length = 5 + pin.length ∧
    (CreateVerifyPinCommand pin).drop 5 = pin := by
  have hmod : pin.length % 256 = pin.length := Nat.mod_eq_of_lt (by omega)
  refine ⟨?_, ?_, ?_⟩
  · simp only [CreateVerifyPinCommand, hmod]
  · simp [CreateVerifyPinCommand]
    omega
  · simp [CreateVerifyPinCommand]

/-- C12 at the PIN `123456`: the command is `00 20 00 81 06 31 32 33 34 35 36`. -/
theorem C12_verify_pin_builder_witness :
    CreateVerifyPinCommand (ascii "123456") =
      [0x00, 0x20, 0x00, 0x81, 0x06, 0x31, 0x32, 0x33, 0x34, 0x35, 0x36] ∧
    (CreateVerifyPinCommand (ascii "123456")).length = 11 := by
  have h := C12_verify_pin_builder (ascii "123456") (by decide)
  exact ⟨h.1.trans (by decide), h.2.1.trans (by decide)⟩

/-- C19: Lc truncation in the ComputeSignature builder.  For data of any
length `n` the command has `n + 6` bytes and its fifth byte is `n mod 256`;
that byte equals `n` exactly when `n ≤ 255`; 256 data bytes give the header
`00 2A 9E P2 00` followed by the 256 bytes and `00`. -/
theorem C19_compute_signature_lc_truncation (data : List Nat) (keyIndex : Int) :
    (CreateComputeSignatureCommand data keyIndex).length = data.length + 6 ∧
    (CreateComputeSignatureCommand data keyIndex).getD 4 0 = data.length % 256 ∧
    ((CreateComputeSignatureCommand data keyIndex).getD 4 0 = data.length ↔
      data.length ≤ 255) ∧
    (CreateComputeSignatureCommand data keyIndex).drop 5 = data ++ [0x00] ∧
    (data.length = 256 →
      (CreateComputeSignatureCommand data keyIndex).take 5 =
        [0x00, 0x2A, 0x9E, (CreateComputeSignatureCommand data keyIndex).getD 3 0, 0x00] ∧
      ((CreateComputeSignatureCommand data keyIndex).drop 5).length = 256 + 1) := by
  have h4 : (CreateComputeSignatureCommand data keyIndex).getD 4 0 = data.length % 256 := by
    simp [CreateComputeSignatureCommand]
  refine ⟨?_, h4, ?_, ?_, ?_⟩
  · simp [CreateComputeSignatureCommand]
  · rw [h4]
    constructor
    · intro h
      have := Nat.mod_lt data.length (by decide : 256 > 0)
      omega
    · intro h
      exact Nat.mod_eq_of_lt (by omega)
  · simp [CreateComputeSignatureCommand]
  · intro h
    simp [CreateComputeSignatureCommand, h]

/-- C19 at 256 data bytes `AB` and keyIndex 1: the command is
`00 2A 9E 9B 00`, the 256 bytes, `00`. -/
theorem C19_compute_signature_lc_truncation_witness :
    (CreateComputeSignatureCommand (List.replicate 256 0xAB) 1).take 5 =
      [0x00, 0x2A, 0x9E, 0x9B, 0x00] ∧
    ((CreateComputeSignatureCommand (List.replicate 256 0xAB) 1).drop 5).length = 257 := by
  have h := (C19_compute_signature_lc_truncation (List.replicate 256 0xAB) 1).2.2.2.2
    (List.length_replicate 256 0xAB)
  exact ⟨h.1.trans (by decide), h.2⟩

/-! ### The GetCertificate operation -/

theorem HandleGetCertificate_operation_success {σ : Type} (T : Transport σ) (fuel : Nat)
    (w : World σ) (args : EncodableMap) (appletID : List Nat)
    (select_cmd d1 d2 certificate : List Nat) (hCard : Nat)
    (ha : args.lookup "appletID" = some (EncodableValue.string appletID))
    (hsel : CreateSelectAppletCommand appletID = Res.ok select_cmd)
    (hT : feed T w.card [select_cmd, CreateSelectCertificateCommand,
        CreateGetCertificateCommand] =
      [⟨SCARD_S_SUCCESS, d1 ++ [0x90, 0x00]⟩, ⟨SCARD_S_SUCCESS, d2 ++ [0x90, 0x00]⟩,
       ⟨SCARD_S_SUCCESS, certificate ++ [0x90, 0x00]⟩]) :
    (HandleGetCertificate.operation T fuel (some args) hCard w).1 = Res.ok () ∧
    (HandleGetCertificate.operation T fuel (some args) hCard w).2.trace =
      w.trace ++ exchanges [select_cmd, CreateSelectCertificateCommand,
          CreateGetCertificateCommand]
        [⟨SCARD_S_SUCCESS, d1 ++ [0x90, 0x00]⟩, ⟨SCARD_S_SUCCESS, d2 ++ [0x90, 0x00]⟩,
         ⟨SCARD_S_SUCCESS, certificate ++ [0x90, 0x00]⟩] ++ [Event.success certificate] := by
  simp only [feed, List.cons.injEq, and_true] at hT
  obtain ⟨h1, h2, h3⟩ := hT
  have e1 := TransmitAndGetResponse_single T fuel w select_cmd d1 0x90 0x00 h1 (by decide)
  have e2 := TransmitAndGetResponse_single T fuel
    { card := (T w.card select_cmd).2,
      trace := w.trace ++ [Event.transmit select_cmd ⟨SCARD_S_SUCCESS, d1 ++ [0x90, 0x00]⟩] }
    CreateSelectCertificateCommand d2 0x90 0x00 h2 (by decide)
  have e3 := TransmitAndGetResponse_single T fuel
    { card := (T (T w.card select_cmd).2 CreateSelectCertificateCommand).2,
      trace := w.trace ++ [Event.transmit select_cmd ⟨SCARD_S_SUCCESS, d1 ++ [0x90, 0x00]⟩] ++
        [Event.transmit CreateSelectCertificateCommand ⟨SCARD_S_SUCCESS, d2 ++ [0x90, 0x00]⟩] }
    CreateGetCertificateCommand certificate 0x90 0x00 h3 (by decide)
  simp only [HandleGetCertificate.operation, Prog.bind_apply, Prog.lift_apply,
    argAt_some _ _ _ ha, Res.bind, getString, hsel, e1, e2, e3, statusNot9000_ok,
    withoutStatus_append, emit, exchanges, Bool.false_eq_true, if_false]
  simp

/-- C13: GetCertificate protocol.  With an open session, an applet identifier
the SelectApplet builder accepts, and a card that answers the three commands
with replies ending in `90 00`, the GetCertificate operation transmits
exactly SelectApplet(applet), then `00 A5 02 04 06 60 04 5C 02 7F 21 00`,
then `00 CA 7F 21 00`, and reports one result: success with the third reply
minus its two status bytes. -/
theorem C13_get_certificate_protocol {σ : Type} (P : Pcsc) (T : Transport σ) (fuel : Nat)
    (w : World σ) (args : EncodableMap) (appletID : List Nat)
    (select_cmd d1 d2 certificate : List Nat)
    (hP : sessionOpens P)
    (ha : args.lookup "appletID" = some (EncodableValue.string appletID))
    (hsel : CreateSelectAppletCommand appletID = Res.ok select_cmd)
    (hT : feed T w.card [select_cmd,
        [0x00, 0xA5, 0x02, 0x04, 0x06, 0x60, 0x04, 0x5C, 0x02, 0x7F, 0x21, 0x00],
        [0x00, 0xCA, 0x7F, 0x21, 0x00]] =
      [⟨SCARD_S_SUCCESS, d1 ++ [0x90, 0x00]⟩, ⟨SCARD_S_SUCCESS, d2 ++ [0x90, 0x00]⟩,
       ⟨SCARD_S_SUCCESS, certificate ++ [0x90, 0x00]⟩]) :
    sentCommands (HandleGetCertificate P T fuel (some args) w).2.trace =
      sentCommands w.trace ++ [select_cmd,
        [0x00, 0xA5, 0x02, 0x04, 0x06, 0x60, 0x04, 0x5C, 0x02, 0x7F, 0x21, 0x00],
        [0x00, 0xCA, 0x7F, 0x21, 0x00]] ∧
    reported (HandleGetCertificate P T fuel (some args) w).2.trace =
      reported w.trace ++ [Event.success certificate] := by
  have hc1 : CreateSelectCertificateCommand =
      [0x00, 0xA5, 0x02, 0x04, 0x06, 0x60, 0x04, 0x5C, 0x02, 0x7F, 0x21, 0x00] := by decide
  have hc2 : CreateGetCertificateCommand = [0x00, 0xCA, 0x7F, 0x21, 0x00] := rfl
  rw [← hc1, ← hc2] at hT ⊢
  obtain ⟨hr, ht⟩ := HandleGetCertificate_operation_success T fuel (openedWorld P w) args
    appletID select_cmd d1 d2 certificate P.connect.2 ha hsel hT
  unfold HandleGetCertificate
  rw [CardOperation_open_ok P _ w hP hr]
  simp only [sentCommands_cleanup, reported_cleanup, ht, sentCommands_append, reported_append,
    sentCommands_openedWorld, reported_openedWorld]
  simp [exchanges, sentCommands, reported]

/-- C13 at the applet `A000000063504B43532D3135` on a scripted card that
answers `90 00`, `90 00`, `30 82 90 00`: three APDUs and the certificate
bytes `30 82` are reported. -/
theorem C13_get_certificate_protocol_witness :
    sentCommands (HandleGetCertificate pcscReady scripted 0 (some scenarioKeyArgs)
      ⟨[⟨0, [0x90, 0x00]⟩, ⟨0, [0x90, 0x00]⟩, ⟨0, [0x30, 0x82, 0x90, 0x00]⟩], []⟩).2.trace =
      [[0x00, 0xA4, 0x04, 0x00, 0x0C, 0xA0, 0x00, 0x00, 0x00, 0x63, 0x50, 0x4B, 0x43, 0x53,
          0x2D, 0x31, 0x35, 0x00],
        [0x00, 0xA5, 0x02, 0x04, 0x06, 0x60, 0x04, 0x5C, 0x02, 0x7F, 0x21, 0x00],
        [0x00, 0xCA, 0x7F, 0x21, 0x00]] ∧
    reported (HandleGetCertificate pcscReady scripted 0 (some scenarioKeyArgs)
      ⟨[⟨0, [0x90, 0x00]⟩, ⟨0, [0x90, 0x00]⟩, ⟨0, [0x30, 0x82, 0x90, 0x00]⟩], []⟩).2.trace =
      [Event.success [0x30, 0x82]] := by
  have h := C13_get_certificate_protocol pcscReady scripted 0
    ⟨[⟨0, [0x90, 0x00]⟩, ⟨0, [0x90, 0x00]⟩, ⟨0, [0x30, 0x82, 0x90, 0x00]⟩], []⟩
    scenarioKeyArgs (ascii "A000000063504B43532D3135")
    [0x00, 0xA4, 0x04, 0x00, 0x0C, 0xA0, 0x00, 0x00, 0x00, 0x63, 0x50, 0x4B, 0x43, 0x53,
      0x2D, 0x31, 0x35, 0x00] [] [] [0x30, 0x82]
    (by decide) (by decide) (by decide) (by decide)
  exact ⟨h.1.trans (by decide), h.2.trans (by decide)⟩

/-! ### The signing callback -/

theorem resize_length (signedHash : List Nat) (n : Nat) (hn : n ≤ 9223372036854775807) :
    ∃ out : List Nat, resize signedHash n = Res.ok out ∧ out.length = n := by
  refine ⟨signedHash.take n ++ List.replicate (n - signedHash.length) 0, ?_, ?_⟩
  · have : ¬ n > 9223372036854775807 := by omega
    simp only [resize, this, if_false]
  · simp only [List.length_append, List.length_take, List.length_replicate]
    omega

/-- C14: signing callback, dry run.  For every declared signatureLength that
is a non-negative `int`, every hashToSign and every prior content of the
output buffer, the dry-run invocation returns normally, leaves the world as
it was (no command is transmitted, the trace is unchanged) and leaves the
output buffer with exactly signatureLength bytes. -/
theorem C14_callback_dry_run {σ : Type} (T : Transport σ) (fuel : Nat)
    (data_to_send_to_card : List Nat) (keyIndex : Int) (signatureLength : Int)
    (hashToSign signedHash : List Nat) (w : World σ)
    (h0 : 0 ≤ signatureLength) (hint : signatureLength ≤ 2147483647) :
    ∃ out : List Nat,
      SigningService T fuel data_to_send_to_card keyIndex signatureLength hashToSign true
        signedHash w = (Res.ok out, w) ∧
      (out.length : Int) = signatureLength := by
  have hmod : signatureLength % 18446744073709551616 = signatureLength :=
    Int.emod_eq_of_lt h0 (by omega)
  have hn : (signatureLength % 18446744073709551616).toNat ≤ 9223372036854775807 := by
    rw [hmod]; omega
  obtain ⟨out, hres, hlen⟩ := resize_length signedHash _ hn
  refine ⟨out, ?_, ?_⟩
  · simp only [SigningService, if_true, Prog.lift_apply, hres]
  · rw [hlen, hmod]
    omega

/-- C14 at signatureLength 3, a five-byte buffer and a card that would
answer: the buffer is cut to three bytes and the card is not touched. -/
theorem C14_callback_dry_run_witness :
    ∃ out : List Nat,
      SigningService scripted 0 [0x01, 0x02] 1 3 [0x09, 0x09] true [5, 5, 5, 5, 5]
        ⟨[⟨0, [0xAA, 0x90, 0x00]⟩], []⟩ = (Res.ok out, ⟨[⟨0, [0xAA, 0x90, 0x00]⟩], []⟩) ∧
      (out.length : Int) = 3 :=
  C14_callback_dry_run scripted 0 [0x01, 0x02] 1 3 [0x09, 0x09] [5, 5, 5, 5, 5]
    ⟨[⟨0, [0xAA, 0x90, 0x00]⟩], []⟩ (by decide) (by decide)

/-- C15 as stated fails for the empty signature: after a dry run of length
3 the buffer is `00 00 00`; the card answers ComputeSignature with `90 00`,
so `S` is empty and not larger than the buffer; the real run succeeds and
the buffer still holds `00 00 00`, not `S`. -/
theorem C15_counterexample :
    (SigningService scripted 0 [0x01, 0x02] 1 3 [] true [] ⟨[⟨0, [0x90, 0x00]⟩], []⟩).1 =
      Res.ok [0, 0, 0] ∧
    (SigningService scripted 0 [0x01, 0x02] 1 3 [] false [0, 0, 0]
      ⟨[⟨0, [] ++ [0x90, 0x00]⟩], []⟩).1 = Res.ok [0, 0, 0] ∧
    (SigningService scripted 0 [0x01, 0x02] 1 3 [] false [0, 0, 0]
      ⟨[⟨0, [] ++ [0x90, 0x00]⟩], []⟩).1 ≠ Res.ok [] := by
  decide

/-- C15, amended: signing callback, real run.  When the card's
ComputeSignature reply is `S ++ [90, 00]`, the invocation throws the runtime
error "PoDoFo allocated a buffer that is too small for the actual
signature." if `len(S)` is greater than the output buffer's current size;
otherwise it returns normally, and the output buffer holds exactly `S` when
`S` is not empty and is left as it was when `S` is empty. -/
theorem C15_callback_real_run {σ : Type} (T : Transport σ) (fuel : Nat)
    (data_to_send_to_card : List Nat) (keyIndex : Int) (signatureLength : Int)
    (hashToSign signedHash : List Nat) (w : World σ) (S : List Nat)
    (hT : (T w.card (CreateComputeSignatureCommand data_to_send_to_card keyIndex)).1 =
      ⟨SCARD_S_SUCCESS, S ++ [0x90, 0x00]⟩) :
    (signedHash.length < S.length →
      (SigningService T fuel data_to_send_to_card keyIndex signatureLength hashToSign false
        signedHash w).1 = Res.raise (Exn.runtime_error
          "PoDoFo allocated a buffer that is too small for the actual signature.")) ∧
    (S.length ≤ signedHash.length → S ≠ [] →
      (SigningService T fuel data_to_send_to_card keyIndex signatureLength hashToSign false
        signedHash w).1 = Res.ok S) ∧
    (S = [] →
      (SigningService T fuel data_to_send_to_card keyIndex signatureLength hashToSign false
        signedHash w).1 = Res.ok signedHash) := by
  have e1 := TransmitAndGetResponse_single T fuel w
    (CreateComputeSignatureCommand data_to_send_to_card keyIndex) S 0x90 0x00 hT (by decide)
  have hsw : sw1Not90 (S ++ [0x90, 0x00]) = false := by
    rw [sw1Not90_append]; decide
  refine ⟨?_, ?_, ?_⟩
  · intro hlt
    simp only [SigningService, Bool.false_eq_true, if_false, Prog.bind_apply, e1, hsw,
      withoutStatus_append, hlt, if_true, throwRuntime, Prog.lift_apply]
  · intro hle hne
    have hnlt : ¬ signedHash.length < S.length := by omega
    simp only [SigningService, Bool.false_eq_true, if_false, Prog.bind_apply, e1, hsw,
      withoutStatus_append, hnlt, ne_eq, hne, not_false_eq_true, if_true, Prog.lift_apply]
  · intro he
    subst he
    simp only [SigningService, Bool.false_eq_true, if_false, Prog.bind_apply, e1, hsw,
      withoutStatus_append, List.length_nil, Nat.not_lt_zero, ne_eq, not_true_eq_false,
      Prog.lift_apply]

/-- C15 (amended) on a three-byte buffer: the reply `AA BB 90 00` leaves
`AA BB` in the buffer, and the reply `01 02 03 04 90 00` is too large. -/
theorem C15_callback_real_run_witness :
    (SigningService scripted 0 [0x01, 0x02] 1 3 [] false [0, 0, 0]
      ⟨[⟨0, [0xAA, 0xBB, 0x90, 0x00]⟩], []⟩).1 = Res.ok [0xAA, 0xBB] ∧
    (SigningService scripted 0 [0x01, 0x02] 1 3 [] false [0, 0, 0]
      ⟨[⟨0, [0x01, 0x02, 0x03, 0x04, 0x90, 0x00]⟩], []⟩).1 = Res.raise (Exn.runtime_error
        "PoDoFo allocated a buffer that is too small for the actual signature.") :=
  ⟨(C15_callback_real_run scripted 0 [0x01, 0x02] 1 3 [] [0, 0, 0]
      ⟨[⟨0, [0xAA, 0xBB, 0x90, 0x00]⟩], []⟩ [0xAA, 0xBB] (by decide)).2.1
      (by decide) (by decide),
   (C15_callback_real_run scripted 0 [0x01, 0x02] 1 3 [] [0, 0, 0]
      ⟨[⟨0, [0x01, 0x02, 0x03, 0x04, 0x90, 0x00]⟩], []⟩ [0x01, 0x02, 0x03, 0x04]
      (by decide)).1 (by decide)⟩

theorem TransmitAndGetResponse_exchanges {σ : Type} (T : Transport σ) (fuel : Nat)
    (w : World σ) (command : List Nat) :
    ∃ (init : List Reply) (last : Reply),
      (TransmitAndGetResponse T fuel w command).2.trace =
        w.trace ++ exchanges (command :: init.map (fun r => get_response_cmd (lastByte r)))
          (init ++ [last]) := by
  have htr : (SCardTransmit T w command).2.trace =
      w.trace ++ [Event.transmit command (T w.card command).1] := rfl
  by_cases hrc : (T w.card command).1.rc = SCARD_S_SUCCESS
  · by_cases hm : moreData (T w.card command).1
    · obtain ⟨e2, _⟩ := TransmitAndGetResponse_chain T fuel w command hm
      obtain ⟨init, last, rs, hsplit, htr2, _, _⟩ :=
        chainLoop_chain T fuel (SCardTransmit T w command).2 (T w.card command).1
          (if (T w.card command).1.data.length > 2 then
            (T w.card command).1.data.take ((T w.card command).1.data.length - 2) else []) hrc
      refine ⟨init, last, ?_⟩
      rw [e2, htr2, htr, ← hsplit]
      simp [exchanges]
    · refine ⟨[], (T w.card command).1, ?_⟩
      rw [TransmitAndGetResponse_pass T fuel w command hrc hm, htr]
      simp [exchanges]
  · refine ⟨[], (T w.card command).1, ?_⟩
    rw [TransmitAndGetResponse_fail T fuel w command hrc, htr]
    simp [exchanges]

theorem sentCommands_exchanges :
    ∀ (cmds : List (List Nat)) (replies : List Reply), cmds.length = replies.length →
      sentCommands (exchanges cmds replies) = cmds := by
  intro cmds
  induction cmds with
  | nil =>
    intro replies _
    simp [exchanges, sentCommands]
  | cons c cs ih =>
    intro replies hlen
    cases replies with
    | nil => simp at hlen
    | cons r rs =>
      have h := ih rs (by simpa using hlen)
      simp only [exchanges] at h
      simp [exchanges, sentCommands, h]

theorem SigningService_real_world {σ : Type} (T : Transport σ) (fuel : Nat)
    (data_to_send_to_card : List Nat) (keyIndex : Int) (signatureLength : Int)
    (hashToSign signedHash : List Nat) (w : World σ) :
    (SigningService T fuel data_to_send_to_card keyIndex signatureLength hashToSign false
      signedHash w).2 =
    (TransmitAndGetResponse T fuel w
      (CreateComputeSignatureCommand data_to_send_to_card keyIndex)).2 := by
  simp only [SigningService, Bool.false_eq_true, if_false, Prog.bind_apply]
  rcases hres : TransmitAndGetResponse T fuel w
    (CreateComputeSignatureCommand data_to_send_to_card keyIndex) with ⟨r, w1⟩
  cases r with
  | ok v =>
    simp only [throwRuntime]
    split
    · rfl
    · split
      · rfl
      · split <;> rfl
  | raise e => rfl
  | undefined => rfl
  | noFuel => rfl

/-- C16: the signing callback ignores the hash the library supplies.  Two
real-run invocations that differ only in hashToSign give the same result,
the same output buffer and the same world (so the same commands); the
commands the callback transmits are ComputeSignature(pdfHashBytes, keyIndex),
built from the outer request, followed by GET RESPONSE commands only, and
none of them has the instruction byte A4 (SELECT) or 20 (VERIFY). -/
theorem C16_callback_ignores_hash {σ : Type} (T : Transport σ) (fuel : Nat)
    (pdfHashBytes : List Nat) (keyIndex : Int) (signatureLength : Int)
    (hash1 hash2 signedHash : List Nat) (w : World σ) :
    SigningService T fuel pdfHashBytes keyIndex signatureLength hash1 false signedHash w =
      SigningService T fuel pdfHashBytes keyIndex signatureLength hash2 false signedHash w ∧
    ∃ les : List Nat,
      sentCommands (SigningService T fuel pdfHashBytes keyIndex signatureLength hash1 false
          signedHash w).2.trace =
        sentCommands w.trace ++
          CreateComputeSignatureCommand pdfHashBytes keyIndex :: les.map get_response_cmd ∧
      ∀ c ∈ CreateComputeSignatureCommand pdfHashBytes keyIndex :: les.map get_response_cmd,
        c.getD 1 0 ≠ 0xA4 ∧ c.getD 1 0 ≠ 0x20 := by
  refine ⟨rfl, ?_⟩
  obtain ⟨init, last, htr⟩ := TransmitAndGetResponse_exchanges T fuel w
    (CreateComputeSignatureCommand pdfHashBytes keyIndex)
  refine ⟨init.map lastByte, ?_, ?_⟩
  · rw [SigningService_real_world, htr, sentCommands_append, sentCommands_exchanges _ _ (by simp)]
    simp [List.map_map, Function.comp_def]
  · intro c hc
    rcases List.mem_cons.mp hc with h | h
    · rw [h]
      simp [CreateComputeSignatureCommand]
    · obtain ⟨le, _, hle⟩ := List.mem_map.mp h
      rw [← hle]
      simp [get_response_cmd]

/-! ### Teardown and reporting on the failure paths -/

/-- C17: the context is not released exactly once on every path.  With a
context established (handle 7) and no reader found, `CardOperation`
releases the context inside the `try` block and again after the `catch`:
two releases.  When the operation throws an exception that is not a
`std::runtime_error` (here `std::out_of_range` for a missing `pin`), the
clean-up is skipped: the card is connected and neither disconnected nor is
the context released.  On the success path the card is disconnected once and
the context released once, in that order. -/
theorem C17_context_release_not_once :
    (HandleSign pcscNoReader scripted 0 (some scenarioSignArgs) ⟨[], []⟩).2.trace =
      [Event.establishContext 0 7, Event.listReaders 0, Event.releaseContext 7,
       Event.error "PC/SC_ERROR" "No card readers found or SCardListReaders failed",
       Event.releaseContext 7] ∧
    releaseCount (HandleSign pcscNoReader scripted 0 (some scenarioSignArgs)
      ⟨[], []⟩).2.trace = 2 ∧
    (HandleSign pcscReady scripted 0 (some signArgsWithoutPin) ⟨[], []⟩).2.trace =
      [Event.establishContext 0 7, Event.listReaders 0, Event.listReaders 0,
       Event.connect 0 9] ∧
    releaseCount (HandleSign pcscReady scripted 0 (some signArgsWithoutPin)
      ⟨[], []⟩).2.trace = 0 ∧
    disconnectCount (HandleSign pcscReady scripted 0 (some signArgsWithoutPin)
      ⟨[], []⟩).2.trace = 0 ∧
    (HandleSign pcscReady scripted 0 (some scenarioSignArgs)
      ⟨[⟨0, [0x90, 0x00]⟩, ⟨0, [0x90, 0x00]⟩, ⟨0, [0xAB, 0xCD, 0x90, 0x00]⟩],
        []⟩).2.trace.drop 7 =
      [Event.success [0xAB, 0xCD], Event.disconnect 9, Event.releaseContext 7] := by
  decide

/-- C18: not every invocation reports a result.  A generateSignature call
without the required `pin` makes `args->at` throw `std::out_of_range`, and a
`keyIndex` held as a 64-bit integer makes `std::get<int>` throw
`std::bad_variant_access`; `CardOperation` catches `std::runtime_error`
only, so the exception leaves the handler and neither `Success` nor `Error`
is called.  The same holds for getRsaPublicKey and getCertificate without
`appletID`.  A SelectApplet reply of zero bytes makes Sign call `back()` on
an empty vector.  An invalid applet hex string is reported as one error. -/
theorem C18_missing_parameter_reports_nothing :
    (HandleSign pcscReady scripted 0 (some signArgsWithoutPin) ⟨[], []⟩).1 =
      Res.raise Exn.out_of_range ∧
    reported (HandleSign pcscReady scripted 0 (some signArgsWithoutPin) ⟨[], []⟩).2.trace =
      [] ∧
    (HandleSign pcscReady scripted 0 (some signArgsKeyIndex64) ⟨[], []⟩).1 =
      Res.raise Exn.bad_variant_access ∧
    reported (HandleSign pcscReady scripted 0 (some signArgsKeyIndex64) ⟨[], []⟩).2.trace =
      [] ∧
    (HandleGetPublicKey pcscReady scripted 0 (some []) ⟨[], []⟩).1 =
      Res.raise Exn.out_of_range ∧
    reported (HandleGetPublicKey pcscReady scripted 0 (some []) ⟨[], []⟩).2.trace = [] ∧
    (HandleGetCertificate pcscReady scripted 0 (some []) ⟨[], []⟩).1 =
      Res.raise Exn.out_of_range ∧
    reported (HandleGetCertificate pcscReady scripted 0 (some []) ⟨[], []⟩).2.trace = [] ∧
    (HandleSign pcscReady scripted 0 (some scenarioSignArgs) ⟨[⟨0, []⟩], []⟩).1 =
      Res.undefined ∧
    reported (HandleSign pcscReady scripted 0 (some scenarioSignArgs)
      ⟨[⟨0, []⟩], []⟩).2.trace = [] ∧
    reported (HandleSign pcscReady scripted 0
      (some [("appletID", EncodableValue.string (ascii "XYZ")),
        ("pin", EncodableValue.string (ascii "123456")),
        ("dataToSign", EncodableValue.uint8list [0x01]),
        ("keyIndex", EncodableValue.int32 1)]) ⟨[], []⟩).2.trace =
      [Event.error "PC/SC_ERROR" "Hex string must have even length"] := by
  decide

/-! ### A run with well-formed replies -/

theorem chainLoop_not61 {σ : Type} (T : Transport σ) (fuel : Nat) (w : World σ)
    (buf full : List Nat) (hlen : 2 ≤ buf.length)
    (h61 : buf.getD (buf.length - 2) 0 ≠ 0x61) :
    chainLoop T fuel w buf full = (Res.ok (buf, full), w) := by
  rw [chainLoop.eq_def]
  have hl : ¬ buf.length < 2 := by omega
  simp only [hl, if_false, h61]

theorem chainLoop_61 {σ : Type} (T : Transport σ) (n : Nat) (w : World σ)
    (buf full : List Nat) (hlen : 2 ≤ buf.length)
    (h61 : buf.getD (buf.length - 2) 0 = 0x61)
    (hrc : (T w.card (get_response_cmd (buf.getD (buf.length - 1) 0))).1.rc =
      SCARD_S_SUCCESS) :
    chainLoop T (n + 1) w buf full =
      chainLoop T n (SCardTransmit T w (get_response_cmd (buf.getD (buf.length - 1) 0))).2
        (T w.card (get_response_cmd (buf.getD (buf.length - 1) 0))).1.data
        (if (T w.card (get_response_cmd (buf.getD (buf.length - 1) 0))).1.data.length > 2 then
          full ++ (T w.card (get_response_cmd (buf.getD (buf.length - 1) 0))).1.data.take
            ((T w.card (get_response_cmd (buf.getD (buf.length - 1) 0))).1.data.length - 2)
         else full) := by
  rw [chainLoop.eq_def]
  have hl : ¬ buf.length < 2 := by omega
  simp only [hl, if_false, h61, if_true, SCardTransmit, hrc, ne_eq, not_true_eq_false]

theorem chainLoop_terminates {σ : Type} (T : Transport σ) :
    ∀ (k fuel : Nat) (w : World σ) (buf full : List Nat),
      2 ≤ buf.length → buf.getD (buf.length - 2) 0 = 0x61 →
      (∀ i ≤ k,
        (replyAt T i w.card (get_response_cmd (buf.getD (buf.length - 1) 0))).rc =
          SCARD_S_SUCCESS ∧
        2 ≤ (replyAt T i w.card
          (get_response_cmd (buf.getD (buf.length - 1) 0))).data.length) →
      (replyAt T k w.card (get_response_cmd (buf.getD (buf.length - 1) 0))).data.getD
        ((replyAt T k w.card
          (get_response_cmd (buf.getD (buf.length - 1) 0))).data.length - 2) 0 ≠ 0x61 →
      k < fuel →
      ∃ (last full1 : List Nat),
        (chainLoop T fuel w buf full).1 = Res.ok (last, full1) ∧
        2 ≤ last.length ∧ last.getD (last.length - 2) 0 ≠ 0x61 := by
  intro k
  induction k with
  | zero =>
    intro fuel w buf full hlen h61 hall hk hfuel
    obtain ⟨n, rfl⟩ : ∃ n, fuel = n + 1 := ⟨fuel - 1, by omega⟩
    obtain ⟨hrc, hl2⟩ := hall 0 (le_refl 0)
    simp only [replyAt] at hrc hl2 hk
    rw [chainLoop_61 T n w buf full hlen h61 hrc, chainLoop_not61 T n _ _ _ hl2 hk]
    exact ⟨_, _, rfl, hl2, hk⟩
  | succ k ih =>
    intro fuel w buf full hlen h61 hall hk hfuel
    obtain ⟨n, rfl⟩ : ∃ n, fuel = n + 1 := ⟨fuel - 1, by omega⟩
    obtain ⟨hrc, hl2⟩ := hall 0 (Nat.zero_le _)
    simp only [replyAt] at hrc hl2
    rw [chainLoop_61 T n w buf full hlen h61 hrc]
    by_cases h1 : (T w.card (get_response_cmd (buf.getD (buf.length - 1) 0))).1.data.getD
        ((T w.card (get_response_cmd (buf.getD (buf.length - 1) 0))).1.data.length - 2) 0 = 0x61
    · apply ih n _ _ _ hl2 h1
      · intro i hi
        exact hall (i + 1) (by omega)
      · exact hk
      · omega
    · rw [chainLoop_not61 T n _ _ _ hl2 h1]
      exact ⟨_, _, rfl, hl2, h1⟩

theorem append_status_wellformed (full last : List Nat) :
    2 ≤ (full ++ [last.getD (last.length - 2) 0, last.getD (last.length - 1) 0]).length ∧
    (full ++ [last.getD (last.length - 2) 0, last.getD (last.length - 1) 0]).getD
      ((full ++ [last.getD (last.length - 2) 0, last.getD (last.length - 1) 0]).length - 2) 0 =
      last.getD (last.length - 2) 0 := by
  refine ⟨by simp, ?_⟩
  exact getD_append_two_fst full _ _

/-- C20: well-formed result of TransmitAndGetResponse.  First part: if the
replies number 0 to `k` of the run are successful with at least two bytes
and reply `k` has a second-to-last byte other than 0x61, then with loop
budget `k` the function returns normally (no read outside a buffer, the
loop ends, nothing is thrown) and the returned sequence has at least two
bytes with a second-to-last byte other than 0x61.  Second part: if the first
reply is a successful `... 61 Le` and the GET RESPONSE reply is successful
with fewer than two bytes, the loop condition reads `response_len - 2`
outside the buffer: the result is undefined behaviour. -/
theorem C20_well_formed_result {σ : Type} (T : Transport σ) (w : World σ)
    (command : List Nat) :
    (∀ (k fuel : Nat),
      (∀ i ≤ k, (replyAt T i w.card command).rc = SCARD_S_SUCCESS ∧
        2 ≤ (replyAt T i w.card command).data.length) →
      (replyAt T k w.card command).data.getD
        ((replyAt T k w.card command).data.length - 2) 0 ≠ 0x61 →
      k ≤ fuel →
      ∃ r : List Nat, (TransmitAndGetResponse T fuel w command).1 = Res.ok r ∧
        2 ≤ r.length ∧ r.getD (r.length - 2) 0 ≠ 0x61) ∧
    (∀ (fuel : Nat), moreData (replyAt T 0 w.card command) →
      (replyAt T 1 w.card command).rc = SCARD_S_SUCCESS →
      (replyAt T 1 w.card command).data.length < 2 →
      1 ≤ fuel →
      (TransmitAndGetResponse T fuel w command).1 = Res.undefined) := by
  constructor
  · intro k fuel hall hk hfuel
    obtain ⟨hrc0, hl0⟩ := hall 0 (Nat.zero_le _)
    simp only [replyAt] at hrc0 hl0
    by_cases hm : moreData (T w.card command).1
    · obtain ⟨_, e1⟩ := TransmitAndGetResponse_chain T fuel w command hm
      obtain ⟨_, _, h61⟩ := hm
      cases k with
      | zero =>
        simp only [replyAt] at hk
        exact absurd h61 hk
      | succ k =>
        obtain ⟨last, full1, hres, hl, hne⟩ := chainLoop_terminates T k fuel
          (SCardTransmit T w command).2 (T w.card command).1.data
          (if (T w.card command).1.data.length > 2 then
            (T w.card command).1.data.take ((T w.card command).1.data.length - 2) else [])
          hl0 h61 (fun i hi => hall (i + 1) (by omega)) hk (by omega)
        rw [hres] at e1
        obtain ⟨hw1, hw2⟩ := append_status_wellformed full1 last
        exact ⟨_, e1, hw1, by rw [hw2]; exact hne⟩
    · rw [TransmitAndGetResponse_pass T fuel w command hrc0 hm]
      refine ⟨_, rfl, hl0, ?_⟩
      intro h61
      exact hm ⟨hrc0, hl0, h61⟩
  · intro fuel hm hrc1 hshort hfuel
    simp only [replyAt] at hm hrc1 hshort
    obtain ⟨n, rfl⟩ : ∃ n, fuel = n + 1 := ⟨fuel - 1, by omega⟩
    obtain ⟨_, e1⟩ := TransmitAndGetResponse_chain T (n + 1) w command hm
    obtain ⟨_, hl0, h61⟩ := hm
    rw [chainLoop_61 T n _ _ _ hl0 h61 hrc1] at e1
    have hu : ∀ full : List Nat, chainLoop T n
        (SCardTransmit T (SCardTransmit T w command).2 (get_response_cmd
          ((T w.card command).1.data.getD ((T w.card command).1.data.length - 1) 0))).2
        (T (SCardTransmit T w command).2.card (get_response_cmd
          ((T w.card command).1.data.getD ((T w.card command).1.data.length - 1) 0))).1.data
        full = (Res.undefined, (SCardTransmit T (SCardTransmit T w command).2
          (get_response_cmd ((T w.card command).1.data.getD
            ((T w.card command).1.data.length - 1) 0))).2) := by
      intro full
      rw [chainLoop.eq_def]
      have hs : (T (SCardTransmit T w command).2.card (get_response_cmd
          ((T w.card command).1.data.getD
            ((T w.card command).1.data.length - 1) 0))).1.data.length < 2 := hshort
      simp only [hs, if_true]
    rw [hu] at e1
    exact e1

/-- C20 on a scripted card: the replies `AA 61 02`, `BB CC 90 00` give the
well-formed result `AA BB CC 90 00`; the replies `61 05`, `90` (one byte)
end in undefined behaviour. -/
theorem C20_well_formed_result_witness :
    (∃ r : List Nat, (TransmitAndGetResponse scripted 1
        ⟨[⟨0, [0xAA, 0x61, 0x02]⟩, ⟨0, [0xBB, 0xCC, 0x90, 0x00]⟩], []⟩
        [0x00, 0xCA, 0x7F, 0x21, 0x00]).1 = Res.ok r ∧
      2 ≤ r.length ∧ r.getD (r.length - 2) 0 ≠ 0x61) ∧
    (TransmitAndGetResponse scripted 1 ⟨[⟨0, [0x61, 0x05]⟩, ⟨0, [0x90]⟩], []⟩
      [0x00, 0xCA, 0x7F, 0x21, 0x00]).1 = Res.undefined :=
  ⟨(C20_well_formed_result scripted
      ⟨[⟨0, [0xAA, 0x61, 0x02]⟩, ⟨0, [0xBB, 0xCC, 0x90, 0x00]⟩], []⟩
      [0x00, 0xCA, 0x7F, 0x21, 0x00]).1 1 1 (by decide) (by decide) (by decide),
   (C20_well_formed_result scripted ⟨[⟨0, [0x61, 0x05]⟩, ⟨0, [0x90]⟩], []⟩
      [0x00, 0xCA, 0x7F, 0x21, 0x00]).2 1 (by decide) (by decide) (by decide) (by decide)⟩

/-! ### The commands of a run -/

theorem chainLoop_chain_fuel {σ : Type} (T : Transport σ) :
    ∀ (fuel : Nat) (w : World σ) (prev : Reply) (full : List Nat),
      prev.rc = SCARD_S_SUCCESS →
      ∃ (init : List Reply) (last : Reply) (rs : List Reply),
        prev :: rs = init ++ [last] ∧
        (chainLoop T fuel w prev.data full).2.trace =
          w.trace ++ exchanges (init.map (fun r => get_response_cmd (lastByte r))) rs ∧
        (∀ r ∈ init, moreData r) ∧
        init.length ≤ fuel ∧
        (moreData last →
          init.length = fuel ∧ (chainLoop T fuel w prev.data full).1 = Res.noFuel) := by
  intro fuel
  induction fuel with
  | zero =>
    intro w prev full hrc
    by_cases hm : moreData prev
    · obtain ⟨_, hl, hb⟩ := hm
      have hl2 : ¬ prev.data.length < 2 := by omega
      have h0 : chainLoop T 0 w prev.data full = (Res.noFuel, w) := by
        rw [chainLoop.eq_def]
        simp only [hl2, if_false, hb, if_true]
      rw [h0]
      exact ⟨[], prev, [], rfl, by simp [exchanges], by simp, le_refl _, fun _ => ⟨rfl, rfl⟩⟩
    · refine ⟨[], prev, [], rfl, ?_, by simp, Nat.zero_le _, fun h => absurd h hm⟩
      rw [chainLoop_stop T 0 w prev full hrc hm]
      simp [exchanges]
  | succ n ih =>
    intro w prev full hrc
    by_cases hm : moreData prev
    · obtain ⟨_, hl, hb⟩ := hm
      by_cases hr1 : (T w.card (get_response_cmd
          (prev.data.getD (prev.data.length - 1) 0))).1.rc = SCARD_S_SUCCESS
      · rw [chainLoop_61 T n w prev.data full hl hb hr1]
        obtain ⟨init, last, rs, hsplit, htr, hall, hlen, hfull⟩ := ih
          (SCardTransmit T w (get_response_cmd (prev.data.getD (prev.data.length - 1) 0))).2
          (T w.card (get_response_cmd (prev.data.getD (prev.data.length - 1) 0))).1
          (if (T w.card (get_response_cmd
              (prev.data.getD (prev.data.length - 1) 0))).1.data.length > 2 then
            full ++ (T w.card (get_response_cmd
              (prev.data.getD (prev.data.length - 1) 0))).1.data.take
              ((T w.card (get_response_cmd
              (prev.data.getD (prev.data.length - 1) 0))).1.data.length - 2)
           else full) hr1
        refine ⟨prev :: init, last,
          (T w.card (get_response_cmd (prev.data.getD (prev.data.length - 1) 0))).1 :: rs,
          ?_, ?_, ?_, ?_, ?_⟩
        · rw [hsplit]; rfl
        · rw [htr]
          simp [SCardTransmit, exchanges, lastByte]
        · intro r hr
          rcases List.mem_cons.mp hr with h | h
          · rw [h]; exact ⟨hrc, hl, hb⟩
          · exact hall r h
        · simp only [List.length_cons]
          omega
        · intro hml
          obtain ⟨h1, h2⟩ := hfull hml
          exact ⟨by simp only [List.length_cons]; omega, h2⟩
      · have hl2 : ¬ prev.data.length < 2 := by omega
        have hfail : chainLoop T (n + 1) w prev.data full =
            (Res.raise (Exn.runtime_error ("GET RESPONSE transmit error: " ++
              to_string (T w.card (get_response_cmd
                (prev.data.getD (prev.data.length - 1) 0))).1.rc)),
              (SCardTransmit T w (get_response_cmd
                (prev.data.getD (prev.data.length - 1) 0))).2) := by
          rw [chainLoop.eq_def]
          simp only [hl2, if_false, hb, if_true, SCardTransmit, ne_eq, hr1, not_false_eq_true]
        rw [hfail]
        refine ⟨[prev], (T w.card (get_response_cmd
          (prev.data.getD (prev.data.length - 1) 0))).1,
          [(T w.card (get_response_cmd
            (prev.data.getD (prev.data.length - 1) 0))).1], rfl, ?_, ?_, ?_, ?_⟩
        · simp [SCardTransmit, exchanges, lastByte]
        · intro r hr
          rw [List.mem_singleton.mp hr]
          exact ⟨hrc, hl, hb⟩
        · simp
        · intro hm2
          exact absurd hm2.1 hr1
    · refine ⟨[], prev, [], rfl, ?_, by simp, Nat.zero_le _, fun h => absurd h hm⟩
      rw [chainLoop_stop T (n + 1) w prev full hrc hm]
      simp [exchanges]

theorem chainLoop_stop_result {σ : Type} (T : Transport σ) (fuel : Nat) (w : World σ)
    (r : Reply) (full : List Nat) (h : ¬ moreData r) (hrc : r.rc = SCARD_S_SUCCESS) :
    (chainLoop T fuel w r.data full).1 ≠ Res.noFuel := by
  rw [chainLoop.eq_def]
  by_cases hl : r.data.length < 2
  · simp only [hl, if_true]
    intro h0
    cases h0
  · have h61 : ¬ r.data.getD (r.data.length - 2) 0 = 0x61 := by
      intro h6
      exact h ⟨hrc, by omega, h6⟩
    simp only [hl, if_false, h61]
    intro h0
    cases h0

theorem chainLoop_run {σ : Type} (T : Transport σ) :
    ∀ (k n : Nat) (w : World σ) (buf full : List Nat),
      2 ≤ buf.length → buf.getD (buf.length - 2) 0 = 0x61 →
      (∀ i < k, moreData
        (replyAt T i w.card (get_response_cmd (buf.getD (buf.length - 1) 0)))) →
      ¬ moreData (replyAt T k w.card (get_response_cmd (buf.getD (buf.length - 1) 0))) →
      k ≤ n →
      (chainLoop T (n + 1) w buf full).2.trace =
        w.trace ++ exchanges
          (runCommands T k w.card (get_response_cmd (buf.getD (buf.length - 1) 0)))
          (runReplies T k w.card (get_response_cmd (buf.getD (buf.length - 1) 0))) ∧
      (chainLoop T (n + 1) w buf full).1 ≠ Res.noFuel := by
  intro k
  induction k with
  | zero =>
    intro n w buf full hlen h61 _ hk _
    simp only [replyAt] at hk
    by_cases hrc : (T w.card (get_response_cmd (buf.getD (buf.length - 1) 0))).1.rc =
        SCARD_S_SUCCESS
    · rw [chainLoop_61 T n w buf full hlen h61 hrc]
      refine ⟨?_, chainLoop_stop_result T n _ _ _ hk hrc⟩
      rw [chainLoop_stop T n _ _ _ hrc hk]
      simp [SCardTransmit, exchanges, runCommands, runReplies]
    · have hl2 : ¬ buf.length < 2 := by omega
      have hfail : chainLoop T (n + 1) w buf full =
          (Res.raise (Exn.runtime_error ("GET RESPONSE transmit error: " ++
            to_string (T w.card (get_response_cmd (buf.getD (buf.length - 1) 0))).1.rc)),
            (SCardTransmit T w (get_response_cmd (buf.getD (buf.length - 1) 0))).2) := by
        rw [chainLoop.eq_def]
        simp only [hl2, if_false, h61, if_true, SCardTransmit, ne_eq, hrc, not_false_eq_true]
      rw [hfail]
      refine ⟨?_, ?_⟩
      · simp [SCardTransmit, exchanges, runCommands, runReplies]
      · intro h0
        cases h0
  | succ k ih =>
    intro n w buf full hlen h61 hall hk hn
    obtain ⟨m, rfl⟩ : ∃ m, n = m + 1 := ⟨n - 1, by omega⟩
    have h0 := hall 0 (Nat.succ_pos k)
    simp only [replyAt] at h0
    obtain ⟨hrc, hl1, hb1⟩ := h0
    rw [chainLoop_61 T (m + 1) w buf full hlen h61 hrc]
    obtain ⟨it, ir⟩ := ih m
      (SCardTransmit T w (get_response_cmd (buf.getD (buf.length - 1) 0))).2
      (T w.card (get_response_cmd (buf.getD (buf.length - 1) 0))).1.data
      (if (T w.card (get_response_cmd (buf.getD (buf.length - 1) 0))).1.data.length > 2 then
          full ++ (T w.card (get_response_cmd (buf.getD (buf.length - 1) 0))).1.data.take
            ((T w.card (get_response_cmd (buf.getD (buf.length - 1) 0))).1.data.length - 2)
         else full)
      hl1 hb1 (fun i hi => hall (i + 1) (by omega)) hk (by omega)
    refine ⟨?_, ir⟩
    rw [it]
    simp [SCardTransmit, exchanges, runCommands, runReplies]

/-- C3: commands sent.  Every run of TransmitAndGetResponse adds to the trace
a chain of exchanges and nothing else.  The first command is the caller's;
every reply that is followed by another command is a successful reply with
second-to-last byte 0x61, and the command that follows it is
`00 C0 00 00 Le` with `Le` the last byte of that reply; at most `fuel` GET
RESPONSE commands are sent, and the last reply of the run is such a reply
only when all `fuel` of them have been sent and the model's loop budget is
used up.  With budget for it the run is complete: if reply number `k ≤ fuel`
is the first that is not a successful `... 61 Le`, the exchanges of the run
are exactly the caller's command and `k` GET RESPONSE commands, one after
each of the replies 0 to `k - 1`, with the replies 0 to `k`; nothing is sent
after reply `k`.  A GET RESPONSE reply of fewer than two bytes makes the
loop condition read outside the buffer; the run ends there with the result
`undefined`. -/
theorem C3_commands_sent {σ : Type} (T : Transport σ) (fuel : Nat) (w : World σ)
    (command : List Nat) :
    (∃ (init : List Reply) (last : Reply),
      (TransmitAndGetResponse T fuel w command).2.trace =
        w.trace ++ exchanges (command :: init.map (fun r => get_response_cmd (lastByte r)))
          (init ++ [last]) ∧
      (∀ r ∈ init, moreData r) ∧
      init.length ≤ fuel ∧
      (moreData last →
        init.length = fuel ∧ (TransmitAndGetResponse T fuel w command).1 = Res.noFuel)) ∧
    (∀ k : Nat, k ≤ fuel →
      (∀ i < k, moreData (replyAt T i w.card command)) →
      ¬ moreData (replyAt T k w.card command) →
      (TransmitAndGetResponse T fuel w command).2.trace =
        w.trace ++ exchanges (runCommands T k w.card command)
          (runReplies T k w.card command) ∧
      (runCommands T k w.card command).length = k + 1 ∧
      (runReplies T k w.card command).length = k + 1 ∧
      (TransmitAndGetResponse T fuel w command).1 ≠ Res.noFuel) := by
  have htr : (SCardTransmit T w command).2.trace =
      w.trace ++ [Event.transmit command (T w.card command).1] := rfl
  have hlenC : ∀ (k : Nat) (s : σ) (c : List Nat), (runCommands T k s c).length = k + 1 := by
    intro k
    induction k with
    | zero => intro s c; rfl
    | succ k ih => intro s c; simp [runCommands, ih]
  have hlenR : ∀ (k : Nat) (s : σ) (c : List Nat), (runReplies T k s c).length = k + 1 := by
    intro k
    induction k with
    | zero => intro s c; rfl
    | succ k ih => intro s c; simp [runReplies, ih]
  constructor
  · by_cases hrc : (T w.card command).1.rc = SCARD_S_SUCCESS
    · by_cases hm : moreData (T w.card command).1
      · obtain ⟨e2, e1⟩ := TransmitAndGetResponse_chain T fuel w command hm
        obtain ⟨init, last, rs, hsplit, htr2, hall, hlen, hfull⟩ :=
          chainLoop_chain_fuel T fuel (SCardTransmit T w command).2 (T w.card command).1
            (if (T w.card command).1.data.length > 2 then
              (T w.card command).1.data.take ((T w.card command).1.data.length - 2) else [])
            hrc
        refine ⟨init, last, ?_, hall, hlen, ?_⟩
        · rw [e2, htr2, htr, ← hsplit]
          simp [exchanges]
        · intro hml
          obtain ⟨h1, h2⟩ := hfull hml
          refine ⟨h1, ?_⟩
          rw [e1, h2]
      · refine ⟨[], (T w.card command).1, ?_, by simp, Nat.zero_le _, fun h => absurd h hm⟩
        rw [TransmitAndGetResponse_pass T fuel w command hrc hm, htr]
        simp [exchanges]
    · refine ⟨[], (T w.card command).1, ?_, by simp, Nat.zero_le _,
        fun h => absurd h.1 hrc⟩
      rw [TransmitAndGetResponse_fail T fuel w command hrc, htr]
      simp [exchanges]
  · intro k hk hall hlast
    refine ⟨?_, hlenC k _ _, hlenR k _ _, ?_⟩
    · cases k with
      | zero =>
        simp only [replyAt] at hlast
        by_cases hrc : (T w.card command).1.rc = SCARD_S_SUCCESS
        · rw [TransmitAndGetResponse_pass T fuel w command hrc hlast, htr]
          simp [exchanges, runCommands, runReplies]
        · rw [TransmitAndGetResponse_fail T fuel w command hrc, htr]
          simp [exchanges, runCommands, runReplies]
      | succ k =>
        obtain ⟨n, rfl⟩ : ∃ n, fuel = n + 1 := ⟨fuel - 1, by omega⟩
        have hm := hall 0 (Nat.succ_pos k)
        simp only [replyAt] at hm
        obtain ⟨e2, _⟩ := TransmitAndGetResponse_chain T (n + 1) w command hm
        obtain ⟨_, hl0, h61⟩ := hm
        obtain ⟨it, _⟩ := chainLoop_run T k n (SCardTransmit T w command).2
          (T w.card command).1.data
          (if (T w.card command).1.data.length > 2 then
            (T w.card command).1.data.take ((T w.card command).1.data.length - 2) else [])
          hl0 h61 (fun i hi => hall (i + 1) (by omega)) hlast (by omega)
        rw [e2, it, htr]
        simp [SCardTransmit, exchanges, runCommands, runReplies]
    · cases k with
      | zero =>
        simp only [replyAt] at hlast
        by_cases hrc : (T w.card command).1.rc = SCARD_S_SUCCESS
        · rw [TransmitAndGetResponse_pass T fuel w command hrc hlast]
          intro h0
          cases h0
        · rw [TransmitAndGetResponse_fail T fuel w command hrc]
          intro h0
          cases h0
      | succ k =>
        obtain ⟨n, rfl⟩ : ∃ n, fuel = n + 1 := ⟨fuel - 1, by omega⟩
        have hm := hall 0 (Nat.succ_pos k)
        simp only [replyAt] at hm
        obtain ⟨_, e1⟩ := TransmitAndGetResponse_chain T (n + 1) w command hm
        obtain ⟨_, hl0, h61⟩ := hm
        obtain ⟨_, ir⟩ := chainLoop_run T k n (SCardTransmit T w command).2
          (T w.card command).1.data
          (if (T w.card command).1.data.length > 2 then
            (T w.card command).1.data.take ((T w.card command).1.data.length - 2) else [])
          hl0 h61 (fun i hi => hall (i + 1) (by omega)) hlast (by omega)
        rw [e1]
        intro h0
        apply ir
        revert h0
        cases (chainLoop T (n + 1) (SCardTransmit T w command).2 (T w.card command).1.data
          (if (T w.card command).1.data.length > 2 then
            (T w.card command).1.data.take ((T w.card command).1.data.length - 2)
            else [])).1 with
        | ok v => intro h0; cases h0
        | raise e => intro h0; cases h0
        | undefined => intro h0; cases h0
        | noFuel => intro _; rfl

/-- C3 on a scripted card that replies `AA 61 02`, `BB 61 03`, `CC 90 00`:
with loop budget 2 the trace is the caller's command, `00 C0 00 00 02` and
`00 C0 00 00 03`, each answered by the next reply, and nothing else. -/
theorem C3_commands_sent_witness :
    (TransmitAndGetResponse scripted 2
      ⟨[⟨0, [0xAA, 0x61, 0x02]⟩, ⟨0, [0xBB, 0x61, 0x03]⟩, ⟨0, [0xCC, 0x90, 0x00]⟩], []⟩
      [0x00, 0xCA, 0x7F, 0x21, 0x00]).2.trace =
      [Event.transmit [0x00, 0xCA, 0x7F, 0x21, 0x00] ⟨0, [0xAA, 0x61, 0x02]⟩,
       Event.transmit [0x00, 0xC0, 0x00, 0x00, 0x02] ⟨0, [0xBB, 0x61, 0x03]⟩,
       Event.transmit [0x00, 0xC0, 0x00, 0x00, 0x03] ⟨0, [0xCC, 0x90, 0x00]⟩] ∧
    (TransmitAndGetResponse scripted 2
      ⟨[⟨0, [0xAA, 0x61, 0x02]⟩, ⟨0, [0xBB, 0x61, 0x03]⟩, ⟨0, [0xCC, 0x90, 0x00]⟩], []⟩
      [0x00, 0xCA, 0x7F, 0x21, 0x00]).1 ≠ Res.noFuel := by
  have h := (C3_commands_sent scripted 2
    ⟨[⟨0, [0xAA, 0x61, 0x02]⟩, ⟨0, [0xBB, 0x61, 0x03]⟩, ⟨0, [0xCC, 0x90, 0x00]⟩], []⟩
    [0x00, 0xCA, 0x7F, 0x21, 0x00]).2 2 (by decide) (by decide) (by decide)
  exact ⟨h.1.trans (by decide), h.2.2.2⟩

end nfcsigner
